import Mathlib

/-!
Shallow embedding of the `rust-vulkan` rendering harness.

The repository contains two generations of the application module:
* `src/vulkanapp/mod.rs` together with `src/vulkanapp/resourceManager.rs`
  (the directory module, with a resource manager, a textured quad and
  per-frame counters), and
* `src/vulkanapp.rs` (the legacy single-file module drawing a plain
  triangle).

Both are embedded below.  Vulkan handles are modelled as natural numbers,
bit-flag sets as natural-number bitmasks (`flags &&& mask == mask` is the
`contains` test of the `ash` flag types), and every call into the Vulkan
driver is recorded as an `Event` in an execution trace.  Functions that can
panic return `Option` (or `Except PanicKind` where the distinct panic
causes matter); `none` / `.error` models the panic, which produces no
result.

A few resource-manager methods referenced from `src/vulkanapp/mod.rs`
(`create_image`, `fill_image`, `create_image_view`, `create_sampler`) have
no body in the provided sources; they are modelled as opaque device
operations that produce a tagged `ImageOp`/handle event and leave the
manager state unchanged, which is all the claims about the embedded code
depend on.
-/

namespace VkModel

/-! ### Vulkan constants (values from the Vulkan registry, as used by `ash`) -/

/-- `VK_MEMORY_PROPERTY_DEVICE_LOCAL_BIT` -/
def MEMORY_PROPERTY_DEVICE_LOCAL : Nat := 0x1

/-- `VK_MEMORY_PROPERTY_HOST_VISIBLE_BIT` -/
def MEMORY_PROPERTY_HOST_VISIBLE : Nat := 0x2

/-- `VK_MEMORY_PROPERTY_HOST_COHERENT_BIT` -/
def MEMORY_PROPERTY_HOST_COHERENT : Nat := 0x4

/-- `vk::BufferUsageFlags::TRANSFER_SRC` -/
def BUFFER_USAGE_TRANSFER_SRC : Nat := 0x1

/-- `vk::BufferUsageFlags::TRANSFER_DST` -/
def BUFFER_USAGE_TRANSFER_DST : Nat := 0x2

/-- `vk::BufferUsageFlags::VERTEX_BUFFER` -/
def BUFFER_USAGE_VERTEX_BUFFER : Nat := 0x80

/-- `vk::AccessFlags::HOST_WRITE` -/
def ACCESS_HOST_WRITE : Nat := 0x4000

/-- `vk::AccessFlags::TRANSFER_READ` -/
def ACCESS_TRANSFER_READ : Nat := 0x800

/-- `vk::AccessFlags::TRANSFER_WRITE` -/
def ACCESS_TRANSFER_WRITE : Nat := 0x1000

/-- `vk::AccessFlags::VERTEX_ATTRIBUTE_READ` -/
def ACCESS_VERTEX_ATTRIBUTE_READ : Nat := 0x2

/-- `vk::PipelineStageFlags::HOST` -/
def PIPELINE_STAGE_HOST : Nat := 0x4000

/-- `vk::PipelineStageFlags::TRANSFER` -/
def PIPELINE_STAGE_TRANSFER : Nat := 0x1000

/-- `vk::PipelineStageFlags::VERTEX_INPUT` -/
def PIPELINE_STAGE_VERTEX_INPUT : Nat := 0x4

/-- `vk::Format::B8G8R8A8_UNORM` -/
def FORMAT_B8G8R8A8_UNORM : Nat := 44

/-- `vk::ColorSpaceKHR::SRGB_NONLINEAR` -/
def COLOR_SPACE_SRGB_NONLINEAR : Nat := 0

/-- `vk::PresentModeKHR::IMMEDIATE` -/
def PRESENT_MODE_IMMEDIATE : Nat := 0

/-- `vk::PresentModeKHR::MAILBOX` -/
def PRESENT_MODE_MAILBOX : Nat := 1

/-- `vk::PresentModeKHR::FIFO` -/
def PRESENT_MODE_FIFO : Nat := 2

/-- `vk::ImageUsageFlags::COLOR_ATTACHMENT` -/
def IMAGE_USAGE_COLOR_ATTACHMENT : Nat := 0x10

/-- `vk::SharingMode::EXCLUSIVE` -/
def SHARING_MODE_EXCLUSIVE : Nat := 0

/-- `vk::CompositeAlphaFlagsKHR::OPAQUE` -/
def COMPOSITE_ALPHA_OPAQUE : Nat := 1

/-- `vk::ShaderStageFlags::VERTEX` -/
def SHADER_STAGE_VERTEX : Nat := 0x1

/-- `vk::ShaderStageFlags::FRAGMENT` -/
def SHADER_STAGE_FRAGMENT : Nat := 0x10

/-- `u32::MAX`, the sentinel for "extent decided by the window". -/
def U32_MAX : Nat := 4294967295

/-- The `contains` test of the `ash` bit-flag types: all bits of `mask`
are set in `flags`. -/
def flagsContain (flags mask : Nat) : Bool := flags &&& mask == mask

/-! ### Physical-device memory description (`vk::PhysicalDeviceMemoryProperties`) -/

/-- One entry of the `memory_types` array. -/
structure MemoryType where
  property_flags : Nat
deriving DecidableEq, Repr

/-- The memory-property query result: the fixed-size `memory_types` array
(modelled as a list) and the number of valid leading entries. -/
structure PhysicalDeviceMemoryProperties where
  memory_type_count : Nat
  memory_types : List MemoryType
deriving DecidableEq, Repr

/-! ### `resourceManager.rs` data model -/

/-- `HostAccessPolicy` from `src/vulkanapp/resourceManager.rs`. -/
inductive HostAccessPolicy where
  | UseStaging (host_memory_type device_memory_type : Nat)
  | SingleBuffer (memory_type : Nat)
deriving DecidableEq, Repr

/-- `Resource` from `src/vulkanapp/resourceManager.rs`: a buffer handle,
its bound device memory and the recorded size. -/
structure Resource where
  buffer : Nat
  memory : Nat
  size : Nat
deriving DecidableEq, Repr

/-- `memory_types.iter().enumerate().find(...)` as used in
`ResourceManager::new`: the first `(index, memory_type)` pair satisfying
the predicate. -/
def enumFind (l : List MemoryType) (p : Nat → MemoryType → Bool) :
    Option (Nat × MemoryType) :=
  l.enum.find? (fun im => p im.1 im.2)

/-- The host-access-policy selection of `ResourceManager::new`
(`src/vulkanapp/resourceManager.rs` lines 36-80): first look for a memory
type below `memory_type_count` whose flags contain both `DEVICE_LOCAL`
and `HOST_COHERENT`; otherwise pair the first `HOST_COHERENT` type with
the first `DEVICE_LOCAL` type; `none` models the
`panic!("No suitable memory types found")`. -/
def selectHostAccessPolicy (props : PhysicalDeviceMemoryProperties) :
    Option HostAccessPolicy :=
  let single_memory_type := enumFind props.memory_types (fun i mt =>
    if i ≥ props.memory_type_count then false
    else flagsContain mt.property_flags
      (MEMORY_PROPERTY_DEVICE_LOCAL ||| MEMORY_PROPERTY_HOST_COHERENT))
  match single_memory_type with
  | some (i, _) => some (HostAccessPolicy.SingleBuffer i)
  | none =>
    let host_visible_memory_type := enumFind props.memory_types (fun i mt =>
      if i ≥ props.memory_type_count then false
      else flagsContain mt.property_flags MEMORY_PROPERTY_HOST_COHERENT)
    let device_memory_type := enumFind props.memory_types (fun i mt =>
      if i ≥ props.memory_type_count then false
      else flagsContain mt.property_flags MEMORY_PROPERTY_DEVICE_LOCAL)
    match host_visible_memory_type, device_memory_type with
    | some (host_memory_type, _), some (device_memory_type, _) =>
        some (HostAccessPolicy.UseStaging host_memory_type device_memory_type)
    | _, _ => none

/-- Claim-side restatement of the policy selection, written from the
specification's words: among the memory types with index below
`memory_type_count`, take the first index with both `DEVICE_LOCAL` and
`HOST_COHERENT` for `SingleBuffer`; otherwise the first `HOST_COHERENT`
index and the first `DEVICE_LOCAL` index for `UseStaging`; fail when no
such pair exists. -/
def claimHostAccessPolicy (props : PhysicalDeviceMemoryProperties) :
    Option HostAccessPolicy :=
  let eligible := props.memory_types.take props.memory_type_count
  match eligible.findIdx? (fun mt => flagsContain mt.property_flags
      (MEMORY_PROPERTY_DEVICE_LOCAL ||| MEMORY_PROPERTY_HOST_COHERENT)) with
  | some i => some (HostAccessPolicy.SingleBuffer i)
  | none =>
    match eligible.findIdx? (fun mt =>
        flagsContain mt.property_flags MEMORY_PROPERTY_HOST_COHERENT),
      eligible.findIdx? (fun mt =>
        flagsContain mt.property_flags MEMORY_PROPERTY_DEVICE_LOCAL) with
    | some h, some d => some (HostAccessPolicy.UseStaging h d)
    | _, _ => none

end VkModel

namespace VkModel

/-! ### Correspondence between `enumerate().find` and prefix `findIdx?` -/

theorem enumFrom_find_guard_none (p : MemoryType → Bool) :
    ∀ (l : List MemoryType) (n m : Nat), m ≤ n →
      (l.enumFrom n).find? (fun im => if im.1 ≥ m then false else p im.2) = none := by
  intro l
  induction l with
  | nil => intro n m _; rfl
  | cons x xs ih =>
    intro n m hmn
    rw [List.enumFrom_cons, List.find?_cons]
    have hge : n ≥ m := hmn
    simp only [hge, if_pos]
    exact ih (n + 1) m (Nat.le_succ_of_le hmn)

theorem enumFrom_find_guard_eq (p : MemoryType → Bool) :
    ∀ (l : List MemoryType) (n m : Nat), n ≤ m →
      ((l.enumFrom n).find? (fun im => if im.1 ≥ m then false else p im.2)).map Prod.fst
        = ((l.take (m - n)).findIdx? p).map (· + n) := by
  intro l
  induction l with
  | nil => intro n m _; simp [List.enumFrom, List.take]
  | cons x xs ih =>
    intro n m hnm
    rcases Nat.lt_or_ge n m with hlt | hge
    · have hsub : m - n = (m - (n + 1)) + 1 := by omega
      rw [List.enumFrom_cons, List.find?_cons, hsub, List.take_succ_cons]
      have hnotge : ¬ (n ≥ m) := by omega
      simp only [hnotge, if_neg, if_false]
      by_cases hp : p x
      · rw [List.findIdx?_cons]
        simp [hp]
      · rw [List.findIdx?_cons]
        simp only [hp, if_neg, Bool.false_eq_true, if_false]
        rw [ih (n + 1) m (by omega)]
        rw [List.findIdx?_succ]
        cases (xs.take (m - (n + 1))).findIdx? p with
        | none => simp
        | some k => simp [Nat.add_comm, Nat.add_assoc, Nat.add_left_comm]
    · have hmn : m - n = 0 := by omega
      rw [enumFrom_find_guard_none p (x :: xs) n m hge, hmn]
      simp

theorem enum_find_guard_eq (p : MemoryType → Bool) (l : List MemoryType) (m : Nat) :
    ((l.enum).find? (fun im => if im.1 ≥ m then false else p im.2)).map Prod.fst
      = (l.take m).findIdx? p := by
  have h := enumFrom_find_guard_eq p l 0 m (Nat.zero_le m)
  simp only [Nat.sub_zero, Nat.add_zero] at h
  rw [Option.map_id'] at h
  exact h

/-- C1: the selection of `ResourceManager::new` coincides with the claimed
first-index description. -/
theorem selectHostAccessPolicy_eq_claim (props : PhysicalDeviceMemoryProperties) :
    selectHostAccessPolicy props = claimHostAccessPolicy props := by
  unfold selectHostAccessPolicy claimHostAccessPolicy enumFind
  have h1 := enum_find_guard_eq
    (fun mt => flagsContain mt.property_flags
      (MEMORY_PROPERTY_DEVICE_LOCAL ||| MEMORY_PROPERTY_HOST_COHERENT))
    props.memory_types props.memory_type_count
  have h2 := enum_find_guard_eq
    (fun mt => flagsContain mt.property_flags MEMORY_PROPERTY_HOST_COHERENT)
    props.memory_types props.memory_type_count
  have h3 := enum_find_guard_eq
    (fun mt => flagsContain mt.property_flags MEMORY_PROPERTY_DEVICE_LOCAL)
    props.memory_types props.memory_type_count
  cases e1 : (props.memory_types.enum).find? (fun im =>
      if im.1 ≥ props.memory_type_count then false
      else flagsContain im.2.property_flags
        (MEMORY_PROPERTY_DEVICE_LOCAL ||| MEMORY_PROPERTY_HOST_COHERENT)) with
  | some v =>
    rw [e1] at h1
    simp only [Option.map_some'] at h1
    simp only [e1, ← h1]
  | none =>
    rw [e1] at h1
    simp only [Option.map_none'] at h1
    simp only [e1, ← h1]
    cases e2 : (props.memory_types.enum).find? (fun im =>
        if im.1 ≥ props.memory_type_count then false
        else flagsContain im.2.property_flags MEMORY_PROPERTY_HOST_COHERENT) with
    | some v2 =>
      rw [e2] at h2
      simp only [Option.map_some'] at h2
      cases e3 : (props.memory_types.enum).find? (fun im =>
          if im.1 ≥ props.memory_type_count then false
          else flagsContain im.2.property_flags MEMORY_PROPERTY_DEVICE_LOCAL) with
      | some v3 =>
        rw [e3] at h3
        simp only [Option.map_some'] at h3
        simp only [e2, e3, ← h2, ← h3]
      | none =>
        rw [e3] at h3
        simp only [Option.map_none'] at h3
        simp only [e2, e3, ← h2, ← h3]
    | none =>
      rw [e2] at h2
      simp only [Option.map_none'] at h2
      simp only [e2, ← h2]

end VkModel

namespace VkModel

/-! ### Device-call events

Every call into the Vulkan driver performed by the embedded code is
recorded as one event.  `ImageOp` stands for the image-related
resource-manager methods whose bodies are not part of the provided
sources. -/

/-- `vk::SwapchainCreateInfoKHR` as filled in by
`create_swapchain_dependent_resources`. -/
structure SwapchainCreateInfo where
  surface : Nat
  min_image_count : Nat
  image_color_space : Nat
  image_format : Nat
  image_extent : Nat × Nat
  image_array_layers : Nat
  image_usage : Nat
  image_sharing_mode : Nat
  pre_transform : Nat
  composite_alpha : Nat
  present_mode : Nat
  clipped : Bool
  old_swapchain : Option Nat
deriving DecidableEq, Repr

/-- One recorded driver call. -/
inductive Event where
  | CreateFence (fence : Nat) (signaled : Bool)
  | WaitForFences (fence : Nat)
  | ResetFences (fence : Nat)
  | CreateBuffer (buffer size usage : Nat)
  | AllocateMemory (memory allocation_size memory_type_index : Nat)
  | BindBufferMemory (buffer memory : Nat)
  | MapMemory (memory : Nat)
  | WriteMapped (memory bytes : Nat)
  | UnmapMemory (memory : Nat)
  | BeginCommandBuffer (cb : Nat)
  | BufferBarrier (cb srcStage dstStage srcAccess dstAccess buffer : Nat)
  | CopyBuffer (cb src dst size : Nat)
  | EndCommandBuffer (cb : Nat)
  | QueueSubmit (queue cb fence : Nat)
  | CreateInstance (h : Nat)
  | CreateSurface (h : Nat)
  | CreateDevice (h : Nat)
  | CreateCommandPool (h : Nat)
  | AllocateCommandBuffers (first count : Nat)
  | CreateSemaphore (h : Nat)
  | CreateSwapchain (h : Nat) (info : SwapchainCreateInfo)
  | GetSwapchainImages (h : Nat)
  | CreateImageView (h image : Nat)
  | CreateRenderPass (h : Nat)
  | CreateFramebuffer (h imageview : Nat)
  | CreateDescriptorSetLayout (h : Nat)
  | CreateDescriptorPool (h : Nat)
  | AllocateDescriptorSets (h : Nat)
  | UpdateDescriptorSets
  | ReadFile (path : String)
  | CreateShaderModule (h : Nat) (code : List Nat)
  | CreatePipelineLayout (h : Nat)
  | CreateGraphicsPipeline (h : Nat) (stages : List (Nat × Nat × String))
  | DestroyShaderModule (h : Nat)
  | DeviceWaitIdle
  | DestroyFramebuffer (h : Nat)
  | DestroyPipeline (h : Nat)
  | DestroyPipelineLayout (h : Nat)
  | DestroyRenderPass (h : Nat)
  | DestroyImageView (h : Nat)
  | DestroySwapchain (h : Nat)
  | AcquireNextImage (swapchain semaphore : Nat)
  | ResetCommandBuffer (cb : Nat)
  | CmdResetQueryPool (cb : Nat)
  | CmdWriteTimestamp (cb : Nat)
  | CmdBeginRenderPass (cb renderPass framebuffer : Nat)
  | CmdBindVertexBuffers (cb buffer : Nat)
  | CmdBindDescriptorSets (cb layout dset : Nat)
  | CmdBindPipeline (cb pipeline : Nat)
  | CmdDraw (cb vertexCount instanceCount firstVertex firstInstance : Nat)
  | CmdEndRenderPass (cb : Nat)
  | QueuePresent (queue swapchain imageIndex : Nat)
  | GetQueryPoolResults
  | CreateQueryPool (h : Nat)
  | CreateSampler (h : Nat)
  | ImageOp (tag : Nat)

/-- Is the event a `queue_submit` call? -/
def Event.isQueueSubmit : Event → Bool
  | .QueueSubmit _ _ _ => true
  | _ => false

/-- Is the event a `create_buffer` call? -/
def Event.isCreateBuffer : Event → Bool
  | .CreateBuffer _ _ _ => true
  | _ => false

/-- Is the event a write through mapped memory? -/
def Event.isWriteMapped : Event → Bool
  | .WriteMapped _ _ => true
  | _ => false

/-- Is the event a `cmd_draw` call? -/
def Event.isCmdDraw : Event → Bool
  | .CmdDraw _ _ _ _ _ => true
  | _ => false

/-- Is the event a `read` of a file? -/
def Event.isReadFile : Event → Bool
  | .ReadFile _ => true
  | _ => false

/-- Is the event a `create_shader_module` call? -/
def Event.isCreateShaderModule : Event → Bool
  | .CreateShaderModule _ _ => true
  | _ => false

/-! ### `ResourceManager` (from `src/vulkanapp/resourceManager.rs`) -/

/-- The distinct panic causes of `ResourceManager::fill_buffer`:
the `assert!(size <= resource.size)` and the
`transfer_completed_fence.unwrap()`. -/
inductive PanicKind where
  | assertFailed
  | fenceMissing
deriving DecidableEq, Repr

/-- The `ResourceManager` state.  Fresh Vulkan handles are produced from
the `nextHandle` counter. -/
structure ResourceManager where
  resources : List Resource
  host_access_policy : HostAccessPolicy
  stagingBuffer : Option Resource
  queue : Nat
  command_buffer : Nat
  transfer_completed_fence : Option Nat
  nextHandle : Nat
deriving DecidableEq, Repr

/-- `ResourceManager::new`: queries the memory properties, selects the
host-access policy (panicking when none fits) and starts with no
resources, no staging buffer and no transfer fence. -/
def ResourceManager.new (props : PhysicalDeviceMemoryProperties)
    (queue command_buffer nextHandle : Nat) : Option ResourceManager :=
  (selectHostAccessPolicy props).map fun policy =>
    { resources := []
      host_access_policy := policy
      stagingBuffer := none
      queue := queue
      command_buffer := command_buffer
      transfer_completed_fence := none
      nextHandle := nextHandle }

/-- `ResourceManager::create_buffer`: under `UseStaging` it adds
`TRANSFER_DST` to the usage and (re)creates the signalled transfer fence;
then it creates the buffer, allocates memory from the policy's memory
type (the driver-reported memory requirement is modelled as the requested
size) and binds it.  Returns the updated manager, the new `Resource` and
the trace. -/
def ResourceManager.create_buffer (rm : ResourceManager) (size usage : Nat) :
    ResourceManager × Resource × List Event :=
  let (rm1, usage1, fenceEvents) :=
    match rm.host_access_policy with
    | .UseStaging _ _ =>
      let fence := rm.nextHandle
      ({ rm with transfer_completed_fence := some fence
                 nextHandle := rm.nextHandle + 1 },
       usage ||| BUFFER_USAGE_TRANSFER_DST,
       [Event.CreateFence fence true])
    | .SingleBuffer _ => (rm, usage, [])
  let buffer := rm1.nextHandle
  let memory := rm1.nextHandle + 1
  let memory_type_index :=
    match rm.host_access_policy with
    | .SingleBuffer memory_type => memory_type
    | .UseStaging _ device_memory_type => device_memory_type
  let res : Resource := { buffer := buffer, memory := memory, size := size }
  ({ rm1 with resources := rm1.resources ++ [res]
              nextHandle := rm1.nextHandle + 2 },
   res,
   fenceEvents ++
     [Event.CreateBuffer buffer size usage1,
      Event.AllocateMemory memory size memory_type_index,
      Event.BindBufferMemory buffer memory])

/-- `ResourceManager::fill_buffer` for `data : &[T]` with
`data.len() = dataLen` and `size_of::<T>() = elemSize`
(`src/vulkanapp/resourceManager.rs` lines 139-257).  The `assert!` is the
first statement; under `SingleBuffer` the data is written through mapped
memory of the destination; under `UseStaging` the transfer fence is
waited on and reset, the staging buffer is taken or first allocated from
`host_memory_type` and sized to this call's data, the data is written to
it, and the transfer command buffer records the barrier/copy/barrier
sequence before being submitted with the transfer fence. -/
def ResourceManager.fill_buffer (rm : ResourceManager) (resource : Resource)
    (dataLen elemSize : Nat) : Except PanicKind (ResourceManager × List Event) :=
  let size := dataLen * elemSize
  if size ≤ resource.size then
    match rm.host_access_policy with
    | .SingleBuffer _ =>
      .ok (rm, [Event.MapMemory resource.memory,
        Event.WriteMapped resource.memory size,
        Event.UnmapMemory resource.memory])
    | .UseStaging host_memory_type _ =>
      match rm.transfer_completed_fence with
      | none => .error PanicKind.fenceMissing
      | some fence =>
        let (staging_buffer, rm1, allocEvents) :=
          match rm.stagingBuffer with
          | some staging =>
            (staging, { rm with stagingBuffer := none }, ([] : List Event))
          | none =>
            let buffer := rm.nextHandle
            let memory := rm.nextHandle + 1
            (({ buffer := buffer, memory := memory, size := size } : Resource),
             { rm with nextHandle := rm.nextHandle + 2 },
             [Event.CreateBuffer buffer size BUFFER_USAGE_TRANSFER_SRC,
              Event.AllocateMemory memory size host_memory_type,
              Event.BindBufferMemory buffer memory])
        .ok ({ rm1 with stagingBuffer := some staging_buffer },
          [Event.WaitForFences fence, Event.ResetFences fence]
          ++ allocEvents
          ++ [Event.MapMemory staging_buffer.memory,
              Event.WriteMapped staging_buffer.memory size,
              Event.UnmapMemory staging_buffer.memory,
              Event.BeginCommandBuffer rm.command_buffer,
              Event.BufferBarrier rm.command_buffer PIPELINE_STAGE_HOST
                PIPELINE_STAGE_TRANSFER ACCESS_HOST_WRITE ACCESS_TRANSFER_READ
                staging_buffer.buffer,
              Event.CopyBuffer rm.command_buffer staging_buffer.buffer
                resource.buffer size,
              Event.BufferBarrier rm.command_buffer PIPELINE_STAGE_TRANSFER
                PIPELINE_STAGE_VERTEX_INPUT ACCESS_TRANSFER_WRITE
                ACCESS_VERTEX_ATTRIBUTE_READ resource.buffer,
              Event.EndCommandBuffer rm.command_buffer,
              Event.QueueSubmit rm.queue rm.command_buffer fence])
  else .error PanicKind.assertFailed

/-- `ResourceManager::cmd_barrier_after_vertex_buffer_use`: the barrier
recorded after the render pass, whose destination depends on the policy. -/
def ResourceManager.cmd_barrier_after_vertex_buffer_use (rm : ResourceManager)
    (command_buffer : Nat) (vertex_buffer : Resource) : List Event :=
  match rm.host_access_policy with
  | .SingleBuffer _ =>
    [Event.BufferBarrier command_buffer PIPELINE_STAGE_VERTEX_INPUT
      PIPELINE_STAGE_HOST ACCESS_VERTEX_ATTRIBUTE_READ ACCESS_HOST_WRITE
      vertex_buffer.buffer]
  | .UseStaging _ _ =>
    [Event.BufferBarrier command_buffer PIPELINE_STAGE_VERTEX_INPUT
      PIPELINE_STAGE_TRANSFER ACCESS_VERTEX_ATTRIBUTE_READ ACCESS_TRANSFER_WRITE
      vertex_buffer.buffer]

end VkModel

namespace VkModel

/-! ### Concrete states used by the witnesses -/

/-- A destination resource of 16 bytes. -/
def sampleResource : Resource := { buffer := 3, memory := 4, size := 16 }

/-- A manager under the `SingleBuffer` policy. -/
def rmSingle : ResourceManager :=
  { resources := [], host_access_policy := HostAccessPolicy.SingleBuffer 0,
    stagingBuffer := none, queue := 1, command_buffer := 2,
    transfer_completed_fence := none, nextHandle := 10 }

/-- A manager under `UseStaging` whose transfer fence exists and whose
staging buffer has not been allocated yet. -/
def rmStagingNone : ResourceManager :=
  { resources := [], host_access_policy := HostAccessPolicy.UseStaging 2 3,
    stagingBuffer := none, queue := 1, command_buffer := 2,
    transfer_completed_fence := some 7, nextHandle := 10 }

/-- A manager under `UseStaging` holding a 4-byte staging buffer. -/
def rmStagingSome : ResourceManager :=
  { resources := [], host_access_policy := HostAccessPolicy.UseStaging 2 3,
    stagingBuffer := some { buffer := 20, memory := 21, size := 4 },
    queue := 1, command_buffer := 2,
    transfer_completed_fence := some 7, nextHandle := 10 }


/-! ### Shared equation lemmas for `fill_buffer` -/

/-- The mapped write and transfer-command events recorded by the staged
branch of `fill_buffer` after the staging buffer has been obtained:
write through the staging buffer's mapped memory, then record the
barrier/copy/barrier sequence and submit it signalling `fence`. -/
def stagedTailEvents (rm : ResourceManager) (staging resource : Resource)
    (size fence : Nat) : List Event :=
  [Event.MapMemory staging.memory,
   Event.WriteMapped staging.memory size,
   Event.UnmapMemory staging.memory,
   Event.BeginCommandBuffer rm.command_buffer,
   Event.BufferBarrier rm.command_buffer PIPELINE_STAGE_HOST
     PIPELINE_STAGE_TRANSFER ACCESS_HOST_WRITE ACCESS_TRANSFER_READ
     staging.buffer,
   Event.CopyBuffer rm.command_buffer staging.buffer resource.buffer size,
   Event.BufferBarrier rm.command_buffer PIPELINE_STAGE_TRANSFER
     PIPELINE_STAGE_VERTEX_INPUT ACCESS_TRANSFER_WRITE
     ACCESS_VERTEX_ATTRIBUTE_READ resource.buffer,
   Event.EndCommandBuffer rm.command_buffer,
   Event.QueueSubmit rm.queue rm.command_buffer fence]

/-- The staging-buffer allocation events of the first staged
`fill_buffer` call. -/
def stagingAllocEvents (staging : Resource) (size host_memory_type : Nat) :
    List Event :=
  [Event.CreateBuffer staging.buffer size BUFFER_USAGE_TRANSFER_SRC,
   Event.AllocateMemory staging.memory size host_memory_type,
   Event.BindBufferMemory staging.buffer staging.memory]

theorem fill_buffer_single_eq (rm : ResourceManager) (resource : Resource)
    (dataLen elemSize mt : Nat)
    (hpol : rm.host_access_policy = HostAccessPolicy.SingleBuffer mt)
    (hsize : dataLen * elemSize ≤ resource.size) :
    rm.fill_buffer resource dataLen elemSize = Except.ok (rm,
      [Event.MapMemory resource.memory,
       Event.WriteMapped resource.memory (dataLen * elemSize),
       Event.UnmapMemory resource.memory]) := by
  simp only [ResourceManager.fill_buffer, hpol, hsize, if_true]

theorem fill_buffer_staging_some_eq (rm : ResourceManager) (resource : Resource)
    (dataLen elemSize host dev fence : Nat) (sb : Resource)
    (hpol : rm.host_access_policy = HostAccessPolicy.UseStaging host dev)
    (hfence : rm.transfer_completed_fence = some fence)
    (hsb : rm.stagingBuffer = some sb)
    (hsize : dataLen * elemSize ≤ resource.size) :
    rm.fill_buffer resource dataLen elemSize = Except.ok
      ({ rm with stagingBuffer := some sb },
       [Event.WaitForFences fence, Event.ResetFences fence]
         ++ stagedTailEvents rm sb resource (dataLen * elemSize) fence) := by
  simp only [ResourceManager.fill_buffer, hpol, hfence, hsb, hsize, if_true,
    stagedTailEvents, List.append_nil, List.nil_append, List.cons_append]

theorem fill_buffer_staging_none_eq (rm : ResourceManager) (resource : Resource)
    (dataLen elemSize host dev fence : Nat)
    (hpol : rm.host_access_policy = HostAccessPolicy.UseStaging host dev)
    (hfence : rm.transfer_completed_fence = some fence)
    (hsb : rm.stagingBuffer = none)
    (hsize : dataLen * elemSize ≤ resource.size) :
    rm.fill_buffer resource dataLen elemSize = Except.ok
      ({ rm with nextHandle := rm.nextHandle + 2
                 stagingBuffer := some ⟨rm.nextHandle, rm.nextHandle + 1,
                   dataLen * elemSize⟩ },
       [Event.WaitForFences fence, Event.ResetFences fence]
         ++ stagingAllocEvents ⟨rm.nextHandle, rm.nextHandle + 1,
              dataLen * elemSize⟩ (dataLen * elemSize) host
         ++ stagedTailEvents rm ⟨rm.nextHandle, rm.nextHandle + 1,
              dataLen * elemSize⟩ resource (dataLen * elemSize) fence) := by
  simp only [ResourceManager.fill_buffer, hpol, hfence, hsb, hsize, if_true,
    stagedTailEvents, stagingAllocEvents, List.append_nil, List.nil_append,
    List.cons_append]

/-! ### C2: staged versus direct upload -/

/-- C2: under `UseStaging` (with the transfer fence present)
`fill_buffer` waits on and resets the transfer fence, writes the data
into the host-visible staging buffer (allocated from `host_memory_type`
on first use), records into the transfer command buffer, in order, a
HOST_WRITE→TRANSFER_READ barrier on the staging buffer, a copy from the
staging buffer to the destination, and a
TRANSFER_WRITE→VERTEX_ATTRIBUTE_READ barrier on the destination, and
submits that command buffer signalling the transfer fence; under
`SingleBuffer` the data is written directly through the destination's
mapped memory with no command submission. -/
theorem fill_buffer_staged_upload (rm : ResourceManager) (resource : Resource)
    (dataLen elemSize : Nat)
    (hsize : dataLen * elemSize ≤ resource.size) :
    (∀ host dev fence,
      rm.host_access_policy = HostAccessPolicy.UseStaging host dev →
      rm.transfer_completed_fence = some fence →
      ∃ staging rm' allocEvents,
        rm.fill_buffer resource dataLen elemSize = Except.ok (rm',
          [Event.WaitForFences fence, Event.ResetFences fence]
          ++ allocEvents
          ++ stagedTailEvents rm staging resource (dataLen * elemSize) fence) ∧
        rm'.stagingBuffer = some staging ∧
        ((rm.stagingBuffer = some staging ∧ allocEvents = []) ∨
         (rm.stagingBuffer = none ∧
          allocEvents = stagingAllocEvents staging (dataLen * elemSize) host))) ∧
    (∀ mt, rm.host_access_policy = HostAccessPolicy.SingleBuffer mt →
      rm.fill_buffer resource dataLen elemSize = Except.ok (rm,
        [Event.MapMemory resource.memory,
         Event.WriteMapped resource.memory (dataLen * elemSize),
         Event.UnmapMemory resource.memory]) ∧
      ([Event.MapMemory resource.memory,
        Event.WriteMapped resource.memory (dataLen * elemSize),
        Event.UnmapMemory resource.memory].countP Event.isQueueSubmit = 0)) := by
  constructor
  · intro host dev fence hpol hfence
    cases hsb : rm.stagingBuffer with
    | some staging =>
      refine ⟨staging, { rm with stagingBuffer := some staging }, [],
        ?_, rfl, Or.inl ⟨rfl, rfl⟩⟩
      rw [fill_buffer_staging_some_eq rm resource dataLen elemSize host dev
        fence staging hpol hfence hsb hsize]
      simp
    | none =>
      refine ⟨⟨rm.nextHandle, rm.nextHandle + 1, dataLen * elemSize⟩,
        { rm with nextHandle := rm.nextHandle + 2
                  stagingBuffer := some ⟨rm.nextHandle, rm.nextHandle + 1,
                    dataLen * elemSize⟩ },
        stagingAllocEvents ⟨rm.nextHandle, rm.nextHandle + 1,
          dataLen * elemSize⟩ (dataLen * elemSize) host,
        ?_, rfl, Or.inr ⟨rfl, rfl⟩⟩
      rw [fill_buffer_staging_none_eq rm resource dataLen elemSize host dev
        fence hpol hfence hsb hsize]
  · intro mt hpol
    refine ⟨fill_buffer_single_eq rm resource dataLen elemSize mt hpol hsize, ?_⟩
    simp [List.countP_cons, Event.isQueueSubmit]

/-- C2 witness: both policy branches at concrete managers. -/
theorem fill_buffer_staged_upload_witness :
    (∃ staging rm' allocEvents,
      rmStagingNone.fill_buffer sampleResource 2 4 = Except.ok (rm',
        [Event.WaitForFences 7, Event.ResetFences 7]
        ++ allocEvents
        ++ stagedTailEvents rmStagingNone staging sampleResource (2 * 4) 7) ∧
      rm'.stagingBuffer = some staging ∧
      ((rmStagingNone.stagingBuffer = some staging ∧ allocEvents = []) ∨
       (rmStagingNone.stagingBuffer = none ∧
        allocEvents = stagingAllocEvents staging (2 * 4) 2))) ∧
    (rmSingle.fill_buffer sampleResource 2 4 = Except.ok (rmSingle,
      [Event.MapMemory sampleResource.memory,
       Event.WriteMapped sampleResource.memory (2 * 4),
       Event.UnmapMemory sampleResource.memory]) ∧
     ([Event.MapMemory sampleResource.memory,
       Event.WriteMapped sampleResource.memory (2 * 4),
       Event.UnmapMemory sampleResource.memory].countP Event.isQueueSubmit
       = 0)) :=
  ⟨(fill_buffer_staged_upload rmStagingNone sampleResource 2 4 (by decide)).1
      2 3 7 rfl rfl,
   (fill_buffer_staged_upload rmSingle sampleResource 2 4 (by decide)).2 0 rfl⟩

/-! ### C8: the size assertion -/

/-- C8: when the data's byte size exceeds the destination resource's
recorded size, `fill_buffer` panics on the leading
`assert!(size <= resource.size)`, recording no device call; within the
size the assertion passes and (for a manager whose transfer fence exists
when staging is in use) the write proceeds. -/
theorem fill_buffer_size_assert (rm : ResourceManager) (resource : Resource)
    (dataLen elemSize : Nat)
    (hwf : (∃ mt, rm.host_access_policy = HostAccessPolicy.SingleBuffer mt) ∨
      rm.transfer_completed_fence.isSome = true) :
    (resource.size < dataLen * elemSize →
      rm.fill_buffer resource dataLen elemSize =
        Except.error PanicKind.assertFailed) ∧
    (dataLen * elemSize ≤ resource.size →
      ∃ rm' evs, rm.fill_buffer resource dataLen elemSize = Except.ok (rm', evs) ∧
        0 < evs.countP Event.isWriteMapped) := by
  constructor
  · intro hgt
    simp only [ResourceManager.fill_buffer]
    rw [if_neg (by omega)]
  · intro hle
    cases hpol : rm.host_access_policy with
    | SingleBuffer mt =>
      refine ⟨rm, _, fill_buffer_single_eq rm resource dataLen elemSize mt
        hpol hle, ?_⟩
      simp [List.countP_cons, Event.isWriteMapped]
    | UseStaging host dev =>
      have hfence : ∃ fence, rm.transfer_completed_fence = some fence := by
        rcases hwf with ⟨mt, hmt⟩ | hsome
        · rw [hpol] at hmt; cases hmt
        · cases hf : rm.transfer_completed_fence with
          | none => rw [hf] at hsome; cases hsome
          | some f => exact ⟨f, rfl⟩
      obtain ⟨fence, hfence⟩ := hfence
      cases hsb : rm.stagingBuffer with
      | some staging =>
        refine ⟨_, _, fill_buffer_staging_some_eq rm resource dataLen elemSize
          host dev fence staging hpol hfence hsb hle, ?_⟩
        simp [List.countP_cons, List.countP_append, Event.isWriteMapped,
          stagedTailEvents]
      | none =>
        refine ⟨_, _, fill_buffer_staging_none_eq rm resource dataLen elemSize
          host dev fence hpol hfence hsb hle, ?_⟩
        simp [List.countP_cons, List.countP_append, Event.isWriteMapped,
          stagedTailEvents, stagingAllocEvents]

/-- C8 witness: 20 bytes overflow the 16-byte resource and panic; 8 bytes
pass the assertion and are written. -/
theorem fill_buffer_size_assert_witness :
    (rmSingle.fill_buffer sampleResource 5 4 =
      Except.error PanicKind.assertFailed) ∧
    (∃ rm' evs, rmSingle.fill_buffer sampleResource 2 4 = Except.ok (rm', evs) ∧
      0 < evs.countP Event.isWriteMapped) :=
  ⟨(fill_buffer_size_assert rmSingle sampleResource 5 4
      (Or.inl ⟨0, rfl⟩)).1 (by decide),
   (fill_buffer_size_assert rmSingle sampleResource 2 4
      (Or.inl ⟨0, rfl⟩)).2 (by decide)⟩

/-! ### C10: the staging buffer is allocated at most once -/

/-- C10: under `UseStaging`, the first `fill_buffer` call allocates the
staging buffer sized to that call's data; every later call takes the
stored staging buffer and restores the very same `Resource`, allocating
no new buffer, regardless of the staging buffer's own recorded size. -/
theorem fill_buffer_staging_allocated_once (rm : ResourceManager)
    (resource : Resource) (dataLen elemSize host dev fence : Nat)
    (hpol : rm.host_access_policy = HostAccessPolicy.UseStaging host dev)
    (hfence : rm.transfer_completed_fence = some fence)
    (hsize : dataLen * elemSize ≤ resource.size) :
    (∀ sb, rm.stagingBuffer = some sb →
      ∃ rm' evs, rm.fill_buffer resource dataLen elemSize = Except.ok (rm', evs) ∧
        rm'.stagingBuffer = some sb ∧ evs.countP Event.isCreateBuffer = 0) ∧
    (rm.stagingBuffer = none →
      ∃ rm' evs, rm.fill_buffer resource dataLen elemSize = Except.ok (rm', evs) ∧
        rm'.stagingBuffer = some ⟨rm.nextHandle, rm.nextHandle + 1,
          dataLen * elemSize⟩ ∧
        evs.countP Event.isCreateBuffer = 1) := by
  constructor
  · intro sb hsb
    refine ⟨_, _, fill_buffer_staging_some_eq rm resource dataLen elemSize
      host dev fence sb hpol hfence hsb hsize, rfl, ?_⟩
    simp [List.countP_cons, List.countP_append, Event.isCreateBuffer,
      stagedTailEvents]
  · intro hsb
    refine ⟨_, _, fill_buffer_staging_none_eq rm resource dataLen elemSize
      host dev fence hpol hfence hsb hsize, rfl, ?_⟩
    simp [List.countP_cons, List.countP_append, Event.isCreateBuffer,
      stagedTailEvents, stagingAllocEvents]

/-- C10 witness: a second call whose 8-byte data exceeds the stored
4-byte staging buffer still reuses it; a first call allocates the staging
buffer sized to the data. -/
theorem fill_buffer_staging_allocated_once_witness :
    (∃ rm' evs, rmStagingSome.fill_buffer sampleResource 2 4 =
        Except.ok (rm', evs) ∧
      rm'.stagingBuffer = some ⟨20, 21, 4⟩ ∧
      evs.countP Event.isCreateBuffer = 0) ∧
    (∃ rm' evs, rmStagingNone.fill_buffer sampleResource 2 4 =
        Except.ok (rm', evs) ∧
      rm'.stagingBuffer = some ⟨rmStagingNone.nextHandle,
        rmStagingNone.nextHandle + 1, 2 * 4⟩ ∧
      evs.countP Event.isCreateBuffer = 1) :=
  ⟨(fill_buffer_staging_allocated_once rmStagingSome sampleResource 2 4 2 3 7
      rfl rfl (by decide)).1 ⟨20, 21, 4⟩ rfl,
   (fill_buffer_staging_allocated_once rmStagingNone sampleResource 2 4 2 3 7
      rfl rfl (by decide)).2 rfl⟩

end VkModel

namespace VkModel

/-! ### Surface/window environment for the swapchain code -/

/-- One `vk::SurfaceFormatKHR`. -/
structure SurfaceFormat where
  format : Nat
  color_space : Nat
deriving DecidableEq, Repr

/-- The `vk::SurfaceCapabilitiesKHR` fields the code reads. -/
structure SurfaceCapabilities where
  min_image_count : Nat
  current_extent : Nat × Nat
  min_image_extent : Nat × Nat
  max_image_extent : Nat × Nat
  current_transform : Nat
deriving DecidableEq, Repr

/-- What the driver and file system answer to the queries issued by the
embedded code: memory properties, surface capabilities, the advertised
formats and present modes, how many images the created swapchain holds,
whether the texture image decodes successfully, and file contents. -/
structure DeviceEnv where
  memory_properties : PhysicalDeviceMemoryProperties
  capabilities : SurfaceCapabilities
  formats : List SurfaceFormat
  present_modes : List Nat
  swapchain_image_count : Nat
  image_ok : Bool
  files : String → List Nat

/-- The window's framebuffer size: the current value, and the successive
values returned while `recreate_swapchain` polls in its size loop. -/
structure WindowEnv where
  framebuffer_size : Nat × Nat
  poll_sizes : List (Nat × Nat)
deriving DecidableEq, Repr

/-- Surface-format preference (`mod.rs` lines 540-544): the first format
equal to `B8G8R8A8_UNORM` with `SRGB_NONLINEAR`, else the first
advertised format; `none` models the `unwrap` panic on an empty list. -/
def chooseSurfaceFormat (formats : List SurfaceFormat) : Option SurfaceFormat :=
  match formats.find? (fun f => f.format == FORMAT_B8G8R8A8_UNORM &&
      f.color_space == COLOR_SPACE_SRGB_NONLINEAR) with
  | some f => some f
  | none => formats.head?

/-- Present-mode preference (`mod.rs` lines 546-554): `MAILBOX`, else
`IMMEDIATE`, else the first advertised mode. -/
def choosePresentMode (modes : List Nat) : Option Nat :=
  match modes.find? (fun m => m == PRESENT_MODE_MAILBOX) with
  | some m => some m
  | none =>
    match modes.find? (fun m => m == PRESENT_MODE_IMMEDIATE) with
    | some m => some m
    | none => modes.head?

/-- Swapchain extent choice (`mod.rs` lines 559-569): the surface's
current extent unless it is the `u32::MAX` sentinel, in which case the
window's framebuffer size clamped to the surface bounds. -/
def chooseSwapchainExtent (caps : SurfaceCapabilities)
    (window_extent : Nat × Nat) : Nat × Nat :=
  if caps.current_extent.1 ≠ U32_MAX then caps.current_extent
  else
    (min (max window_extent.1 caps.min_image_extent.1) caps.max_image_extent.1,
     min (max window_extent.2 caps.min_image_extent.2) caps.max_image_extent.2)

/-- The `vk::SwapchainCreateInfoKHR` filled by
`create_swapchain_dependent_resources` (`mod.rs` lines 574-591). -/
def swapchainCreateInfoFor (caps : SurfaceCapabilities) (surface : Nat)
    (extent : Nat × Nat) (fmt : SurfaceFormat) (present_mode : Nat)
    (old_swapchain : Option Nat) : SwapchainCreateInfo :=
  { surface := surface
    min_image_count := caps.min_image_count + 1
    image_color_space := fmt.color_space
    image_format := fmt.format
    image_extent := extent
    image_array_layers := 1
    image_usage := IMAGE_USAGE_COLOR_ATTACHMENT
    image_sharing_mode := SHARING_MODE_EXCLUSIVE
    pre_transform := caps.current_transform
    composite_alpha := COMPOSITE_ALPHA_OPAQUE
    present_mode := present_mode
    clipped := true
    old_swapchain := old_swapchain }

/-- The swapchain-dependent resources of `src/vulkanapp/mod.rs`. -/
structure SwapchainDependentResources where
  swapchain : Nat
  swapchain_images : List Nat
  swapchain_format : Nat
  swapchain_extent : Nat × Nat
  swapchain_imageviews : List Nat
  swapchain_framebuffers : List Nat
  render_pass : Nat
  pipeline_layout : Nat
  graphics_pipeline : Nat
  descriptor_set : Nat
deriving DecidableEq, Repr

/-- `VulkanApp::create_swapchain_dependent_resources`
(`src/vulkanapp/mod.rs` lines 531-877): choose format, present mode and
extent, create the swapchain (passing `old_swapchain` when given), query
its images, create one image view per image, the render pass, one
framebuffer per image, the descriptor objects, read the two SPIR-V files,
create the two shader modules, the pipeline layout and the graphics
pipeline, and destroy the shader modules.  `h0` is the fresh-handle base;
the returned `Nat` is the next free handle.  `none` models the `unwrap`
panics on an empty format or present-mode list. -/
def VulkanApp.create_swapchain_dependent_resources (env : DeviceEnv)
    (w : WindowEnv) (surface : Nat) (old_swapchain : Option Nat) (h0 : Nat) :
    Option (SwapchainDependentResources × List Event × Nat) :=
  match chooseSurfaceFormat env.formats, choosePresentMode env.present_modes with
  | some fmt, some present_mode =>
    let extent := chooseSwapchainExtent env.capabilities w.framebuffer_size
    let info := swapchainCreateInfoFor env.capabilities surface extent fmt
      present_mode old_swapchain
    let k := env.swapchain_image_count
    let swapchain := h0
    let images := (List.range k).map (fun i => h0 + 1 + i)
    let views := (List.range k).map (fun i => h0 + 1 + k + i)
    let render_pass := h0 + 1 + 2 * k
    let framebuffers := (List.range k).map (fun i => h0 + 2 + 2 * k + i)
    let dsl := h0 + 2 + 3 * k
    let dpool := h0 + 3 + 3 * k
    let dset := h0 + 4 + 3 * k
    let vmod := h0 + 5 + 3 * k
    let fmod := h0 + 6 + 3 * k
    let layout := h0 + 7 + 3 * k
    let pipeline := h0 + 8 + 3 * k
    some
      ({ swapchain := swapchain
         swapchain_images := images
         swapchain_format := fmt.format
         swapchain_extent := extent
         swapchain_imageviews := views
         swapchain_framebuffers := framebuffers
         render_pass := render_pass
         pipeline_layout := layout
         graphics_pipeline := pipeline
         descriptor_set := dset },
       [Event.CreateSwapchain swapchain info, Event.GetSwapchainImages swapchain]
       ++ (List.range k).map (fun i =>
            Event.CreateImageView (h0 + 1 + k + i) (h0 + 1 + i))
       ++ [Event.CreateRenderPass render_pass]
       ++ (List.range k).map (fun i =>
            Event.CreateFramebuffer (h0 + 2 + 2 * k + i) (h0 + 1 + k + i))
       ++ [Event.CreateDescriptorSetLayout dsl,
           Event.CreateDescriptorPool dpool,
           Event.AllocateDescriptorSets dset,
           Event.UpdateDescriptorSets,
           Event.ReadFile "shaders/vert.spv",
           Event.ReadFile "shaders/frag.spv",
           Event.CreateShaderModule vmod (env.files "shaders/vert.spv"),
           Event.CreateShaderModule fmod (env.files "shaders/frag.spv"),
           Event.CreatePipelineLayout layout,
           Event.CreateGraphicsPipeline pipeline
             [(SHADER_STAGE_VERTEX, vmod, "main"),
              (SHADER_STAGE_FRAGMENT, fmod, "main")],
           Event.DestroyShaderModule vmod,
           Event.DestroyShaderModule fmod],
       h0 + 9 + 3 * k)
  | _, _ => none

end VkModel

namespace VkModel

/-- `countP` vanishes on a mapped segment none of whose images satisfy
the predicate. -/
theorem countP_map_zero {α : Type} (f : α → Event) (p : Event → Bool)
    (h : ∀ x, p (f x) = false) (l : List α) : (l.map f).countP p = 0 := by
  induction l with
  | nil => rfl
  | cons a t ih => simp [List.countP_cons, h, ih]

/-- A sample environment: one advertised format (the preferred one), only
`FIFO` advertised, one swapchain image, and a single-buffer-friendly
memory type. -/
def sampleEnv : DeviceEnv :=
  { memory_properties :=
      { memory_type_count := 1
        memory_types := [{ property_flags := 0x7 }] }
    capabilities :=
      { min_image_count := 2
        current_extent := (800, 600)
        min_image_extent := (1, 1)
        max_image_extent := (4096, 4096)
        current_transform := 1 }
    formats := [{ format := 44, color_space := 0 }]
    present_modes := [PRESENT_MODE_FIFO]
    swapchain_image_count := 1
    image_ok := true
    files := fun _ => [3, 2, 2, 119] }

/-- A sample window of fixed size. -/
def sampleWindow : WindowEnv :=
  { framebuffer_size := (800, 600), poll_sizes := [(800, 600)] }

/-! ### C5: raw shader loading around pipeline creation -/

/-- C5: every run of `create_swapchain_dependent_resources` reads exactly
the files `shaders/vert.spv` and `shaders/frag.spv` (once each), creates
the vertex and fragment shader modules directly from those bytes, uses
them in the single graphics pipeline with entry point `main` for both
stages, and destroys both modules immediately after the pipeline is
created, at the end of the trace. -/
theorem shader_modules_loaded_raw (env : DeviceEnv) (w : WindowEnv)
    (surface : Nat) (old_swapchain : Option Nat) (h0 : Nat)
    (fmt : SurfaceFormat) (pm : Nat)
    (hfmt : chooseSurfaceFormat env.formats = some fmt)
    (hpm : choosePresentMode env.present_modes = some pm) :
    ∃ sdr tr h1 vmod fmod p q,
      VulkanApp.create_swapchain_dependent_resources env w surface
        old_swapchain h0 = some (sdr, tr, h1) ∧
      tr = p
        ++ [Event.ReadFile "shaders/vert.spv",
            Event.ReadFile "shaders/frag.spv",
            Event.CreateShaderModule vmod (env.files "shaders/vert.spv"),
            Event.CreateShaderModule fmod (env.files "shaders/frag.spv")]
        ++ q
        ++ [Event.CreateGraphicsPipeline sdr.graphics_pipeline
              [(SHADER_STAGE_VERTEX, vmod, "main"),
               (SHADER_STAGE_FRAGMENT, fmod, "main")],
            Event.DestroyShaderModule vmod,
            Event.DestroyShaderModule fmod] ∧
      tr.countP Event.isReadFile = 2 ∧
      tr.countP Event.isCreateShaderModule = 2 := by
  unfold VulkanApp.create_swapchain_dependent_resources
  simp only [hfmt, hpm]
  refine ⟨_, _, _, h0 + 5 + 3 * env.swapchain_image_count,
    h0 + 6 + 3 * env.swapchain_image_count,
    [Event.CreateSwapchain h0 (swapchainCreateInfoFor env.capabilities surface
        (chooseSwapchainExtent env.capabilities w.framebuffer_size) fmt pm
        old_swapchain),
     Event.GetSwapchainImages h0]
    ++ (List.range env.swapchain_image_count).map (fun i =>
         Event.CreateImageView (h0 + 1 + env.swapchain_image_count + i)
           (h0 + 1 + i))
    ++ [Event.CreateRenderPass (h0 + 1 + 2 * env.swapchain_image_count)]
    ++ (List.range env.swapchain_image_count).map (fun i =>
         Event.CreateFramebuffer (h0 + 2 + 2 * env.swapchain_image_count + i)
           (h0 + 1 + env.swapchain_image_count + i))
    ++ [Event.CreateDescriptorSetLayout (h0 + 2 + 3 * env.swapchain_image_count),
        Event.CreateDescriptorPool (h0 + 3 + 3 * env.swapchain_image_count),
        Event.AllocateDescriptorSets (h0 + 4 + 3 * env.swapchain_image_count),
        Event.UpdateDescriptorSets],
    [Event.CreatePipelineLayout (h0 + 7 + 3 * env.swapchain_image_count)],
    rfl, ?_, ?_, ?_⟩
  · simp [List.append_assoc]
  · simp [List.countP_map, List.countP_cons, Function.comp_def,
      Event.isReadFile]
  · simp [List.countP_map, List.countP_cons, Function.comp_def,
      Event.isCreateShaderModule]

/-- C5 witness: the shader-loading shape at the sample environment. -/
theorem shader_modules_loaded_raw_witness :
    ∃ sdr tr h1 vmod fmod p q,
      VulkanApp.create_swapchain_dependent_resources sampleEnv sampleWindow
        1 none 100 = some (sdr, tr, h1) ∧
      tr = p
        ++ [Event.ReadFile "shaders/vert.spv",
            Event.ReadFile "shaders/frag.spv",
            Event.CreateShaderModule vmod (sampleEnv.files "shaders/vert.spv"),
            Event.CreateShaderModule fmod (sampleEnv.files "shaders/frag.spv")]
        ++ q
        ++ [Event.CreateGraphicsPipeline sdr.graphics_pipeline
              [(SHADER_STAGE_VERTEX, vmod, "main"),
               (SHADER_STAGE_FRAGMENT, fmod, "main")],
            Event.DestroyShaderModule vmod,
            Event.DestroyShaderModule fmod] ∧
      tr.countP Event.isReadFile = 2 ∧
      tr.countP Event.isCreateShaderModule = 2 :=
  shader_modules_loaded_raw sampleEnv sampleWindow 1 none 100
    ⟨44, 0⟩ PRESENT_MODE_FIFO rfl rfl

end VkModel

namespace VkModel

/-! ### C6: documented-constant swapchain configuration -/

/-- `choosePresentMode` in the claim's terms: `MAILBOX` when advertised,
else `IMMEDIATE` when advertised, else the first advertised mode. -/
theorem choosePresentMode_claim (modes : List Nat) (pm : Nat)
    (hpm : choosePresentMode modes = some pm) :
    (PRESENT_MODE_MAILBOX ∈ modes → pm = PRESENT_MODE_MAILBOX) ∧
    (PRESENT_MODE_MAILBOX ∉ modes → PRESENT_MODE_IMMEDIATE ∈ modes →
      pm = PRESENT_MODE_IMMEDIATE) ∧
    (PRESENT_MODE_MAILBOX ∉ modes → PRESENT_MODE_IMMEDIATE ∉ modes →
      modes.head? = some pm) := by
  unfold choosePresentMode at hpm
  cases hm : modes.find? (fun m => m == PRESENT_MODE_MAILBOX) with
  | some x =>
    rw [hm] at hpm
    have hx : x = PRESENT_MODE_MAILBOX := by
      simpa using List.find?_some hm
    have hpe : pm = PRESENT_MODE_MAILBOX := (Option.some.inj hpm) ▸ hx
    subst hpe
    refine ⟨fun _ => rfl, fun hnm _ => ?_, fun hnm _ => ?_⟩
    · exact absurd (hx ▸ List.mem_of_find?_eq_some hm) hnm
    · exact absurd (hx ▸ List.mem_of_find?_eq_some hm) hnm
  | none =>
    rw [hm] at hpm
    have hnm : PRESENT_MODE_MAILBOX ∉ modes := by
      intro hmem
      have := (List.find?_eq_none.mp hm) PRESENT_MODE_MAILBOX hmem
      simp at this
    cases hi : modes.find? (fun m => m == PRESENT_MODE_IMMEDIATE) with
    | some y =>
      rw [hi] at hpm
      have hy : y = PRESENT_MODE_IMMEDIATE := by
        simpa using List.find?_some hi
      have hpe : pm = PRESENT_MODE_IMMEDIATE := (Option.some.inj hpm) ▸ hy
      subst hpe
      refine ⟨fun hmem => absurd hmem hnm, fun _ _ => rfl, fun _ hni => ?_⟩
      · exact absurd (hy ▸ List.mem_of_find?_eq_some hi) hni
    | none =>
      rw [hi] at hpm
      have hni : PRESENT_MODE_IMMEDIATE ∉ modes := by
        intro hmem
        have := (List.find?_eq_none.mp hi) PRESENT_MODE_IMMEDIATE hmem
        simp at this
      exact ⟨fun hmem => absurd hmem hnm, fun _ hmem => absurd hmem hni,
        fun _ _ => hpm⟩

/-- `chooseSurfaceFormat` in the claim's terms: the first advertised
format equal to `B8G8R8A8_UNORM` with `SRGB_NONLINEAR`, else the first
advertised format. -/
theorem chooseSurfaceFormat_claim (formats : List SurfaceFormat)
    (fmt : SurfaceFormat) (hfmt : chooseSurfaceFormat formats = some fmt) :
    (formats.find? (fun f => f.format == FORMAT_B8G8R8A8_UNORM &&
        f.color_space == COLOR_SPACE_SRGB_NONLINEAR) = some fmt ∧
      fmt.format = FORMAT_B8G8R8A8_UNORM ∧
      fmt.color_space = COLOR_SPACE_SRGB_NONLINEAR) ∨
    (formats.find? (fun f => f.format == FORMAT_B8G8R8A8_UNORM &&
        f.color_space == COLOR_SPACE_SRGB_NONLINEAR) = none ∧
      formats.head? = some fmt) := by
  unfold chooseSurfaceFormat at hfmt
  cases hf : formats.find? (fun f => f.format == FORMAT_B8G8R8A8_UNORM &&
      f.color_space == COLOR_SPACE_SRGB_NONLINEAR) with
  | some g =>
    rw [hf] at hfmt
    obtain rfl : g = fmt := Option.some.inj hfmt
    have hg := List.find?_some hf
    simp at hg
    exact Or.inl ⟨rfl, hg.1, hg.2⟩
  | none =>
    rw [hf] at hfmt
    exact Or.inr ⟨rfl, hfmt⟩

/-- C6: the swapchain configuration chosen by
`create_swapchain_dependent_resources` uses the claimed fixed constants:
the preferred-or-first surface format, the MAILBOX/IMMEDIATE/first
present mode, `COLOR_ATTACHMENT` usage, `EXCLUSIVE` sharing, `OPAQUE`
composite alpha, one array layer, and the surface's minimum image count
plus one. -/
theorem swapchain_config_constants (env : DeviceEnv) (w : WindowEnv)
    (surface : Nat) (old_swapchain : Option Nat) (h0 : Nat)
    (fmt : SurfaceFormat) (pm : Nat)
    (hfmt : chooseSurfaceFormat env.formats = some fmt)
    (hpm : choosePresentMode env.present_modes = some pm) :
    ∃ sdr tr h1 info,
      VulkanApp.create_swapchain_dependent_resources env w surface
        old_swapchain h0 = some (sdr, tr, h1) ∧
      Event.CreateSwapchain sdr.swapchain info ∈ tr ∧
      info.image_usage = IMAGE_USAGE_COLOR_ATTACHMENT ∧
      info.image_sharing_mode = SHARING_MODE_EXCLUSIVE ∧
      info.composite_alpha = COMPOSITE_ALPHA_OPAQUE ∧
      info.image_array_layers = 1 ∧
      info.min_image_count = env.capabilities.min_image_count + 1 ∧
      info.old_swapchain = old_swapchain ∧
      info.image_format = fmt.format ∧
      info.image_color_space = fmt.color_space ∧
      info.present_mode = pm ∧
      ((env.formats.find? (fun f => f.format == FORMAT_B8G8R8A8_UNORM &&
          f.color_space == COLOR_SPACE_SRGB_NONLINEAR) = some fmt ∧
        fmt.format = FORMAT_B8G8R8A8_UNORM ∧
        fmt.color_space = COLOR_SPACE_SRGB_NONLINEAR) ∨
       (env.formats.find? (fun f => f.format == FORMAT_B8G8R8A8_UNORM &&
          f.color_space == COLOR_SPACE_SRGB_NONLINEAR) = none ∧
        env.formats.head? = some fmt)) ∧
      (PRESENT_MODE_MAILBOX ∈ env.present_modes →
        pm = PRESENT_MODE_MAILBOX) ∧
      (PRESENT_MODE_MAILBOX ∉ env.present_modes →
        PRESENT_MODE_IMMEDIATE ∈ env.present_modes →
        pm = PRESENT_MODE_IMMEDIATE) ∧
      (PRESENT_MODE_MAILBOX ∉ env.present_modes →
        PRESENT_MODE_IMMEDIATE ∉ env.present_modes →
        env.present_modes.head? = some pm) := by
  obtain ⟨hc1, hc2, hc3⟩ := choosePresentMode_claim env.present_modes pm hpm
  have hfc := chooseSurfaceFormat_claim env.formats fmt hfmt
  unfold VulkanApp.create_swapchain_dependent_resources
  simp only [hfmt, hpm]
  refine ⟨_, _, _,
    swapchainCreateInfoFor env.capabilities surface
      (chooseSwapchainExtent env.capabilities w.framebuffer_size) fmt pm
      old_swapchain,
    rfl, ?_, rfl, rfl, rfl, rfl, rfl, rfl, rfl, rfl, rfl, hfc, hc1, hc2, hc3⟩
  simp

/-- C6 witness: the configuration at the sample environment, whose only
advertised mode is FIFO and whose first format is the preferred one. -/
theorem swapchain_config_constants_witness :
    ∃ sdr tr h1 info,
      VulkanApp.create_swapchain_dependent_resources sampleEnv sampleWindow
        1 none 100 = some (sdr, tr, h1) ∧
      Event.CreateSwapchain sdr.swapchain info ∈ tr ∧
      info.image_usage = IMAGE_USAGE_COLOR_ATTACHMENT ∧
      info.image_sharing_mode = SHARING_MODE_EXCLUSIVE ∧
      info.composite_alpha = COMPOSITE_ALPHA_OPAQUE ∧
      info.image_array_layers = 1 ∧
      info.min_image_count = sampleEnv.capabilities.min_image_count + 1 ∧
      info.old_swapchain = none ∧
      info.image_format = (⟨44, 0⟩ : SurfaceFormat).format ∧
      info.image_color_space = (⟨44, 0⟩ : SurfaceFormat).color_space ∧
      info.present_mode = PRESENT_MODE_FIFO ∧
      ((sampleEnv.formats.find? (fun f => f.format == FORMAT_B8G8R8A8_UNORM &&
          f.color_space == COLOR_SPACE_SRGB_NONLINEAR) =
            some (⟨44, 0⟩ : SurfaceFormat) ∧
        (⟨44, 0⟩ : SurfaceFormat).format = FORMAT_B8G8R8A8_UNORM ∧
        (⟨44, 0⟩ : SurfaceFormat).color_space = COLOR_SPACE_SRGB_NONLINEAR) ∨
       (sampleEnv.formats.find? (fun f => f.format == FORMAT_B8G8R8A8_UNORM &&
          f.color_space == COLOR_SPACE_SRGB_NONLINEAR) = none ∧
        sampleEnv.formats.head? = some (⟨44, 0⟩ : SurfaceFormat))) ∧
      (PRESENT_MODE_MAILBOX ∈ sampleEnv.present_modes →
        PRESENT_MODE_FIFO = PRESENT_MODE_MAILBOX) ∧
      (PRESENT_MODE_MAILBOX ∉ sampleEnv.present_modes →
        PRESENT_MODE_IMMEDIATE ∈ sampleEnv.present_modes →
        PRESENT_MODE_FIFO = PRESENT_MODE_IMMEDIATE) ∧
      (PRESENT_MODE_MAILBOX ∉ sampleEnv.present_modes →
        PRESENT_MODE_IMMEDIATE ∉ sampleEnv.present_modes →
        sampleEnv.present_modes.head? = some PRESENT_MODE_FIFO) :=
  swapchain_config_constants sampleEnv sampleWindow 1 none 100
    ⟨44, 0⟩ PRESENT_MODE_FIFO rfl rfl

end VkModel

namespace VkModel

/-! ### The application state of `src/vulkanapp/mod.rs` -/

/-- `IN_FLIGHT_FRAMES` (`mod.rs` line 78). -/
def IN_FLIGHT_FRAMES : Nat := 2

/-- The per-frame synchronization objects. -/
structure SyncObjects where
  image_available_semaphores : List Nat
  render_finished_semaphores : List Nat
  in_flight_fences : List Nat
deriving DecidableEq, Repr

/-- The `VulkanApp` state (`mod.rs` lines 44-76).  `nextHandle` is the
model's fresh-handle counter (driver-generated handles in the source).
`mod.rs` names the vertex buffer's type `BufferResource`; the provided
`resourceManager.rs` defines it as `Resource`. -/
structure VulkanApp where
  surface : Nat
  device : Nat
  queue : Nat
  swapchain_dependent_resources : Option SwapchainDependentResources
  command_pool : Nat
  command_buffers : List Nat
  resource_manager : ResourceManager
  resource_command_buffer : Nat
  vertex_buffer : Resource
  image_view : Nat
  sampler : Nat
  sync_objects : SyncObjects
  cur_frame : Nat
  in_flight_frame : Nat
  query_pool : Nat
  nextHandle : Nat
deriving DecidableEq, Repr

/-- `VulkanApp::new` (`mod.rs` lines 81-368): create the instance, the
surface, the device, the command pool, two primary command buffers, two
semaphore pairs, two signalled in-flight fences and the resource command
buffer; build the resource manager (panicking when no memory type fits),
create the vertex buffer sized `vertex_data.len() * 4`, decode and upload
the texture image (the image methods are opaque in the provided sources),
create the swapchain-dependent resources, and finally the query pool.
Counters start at zero. -/
def VulkanApp.new (env : DeviceEnv) (w : WindowEnv) (vertexDataLen : Nat) :
    Option (VulkanApp × List Event) :=
  match ResourceManager.new env.memory_properties 3 13 14 with
  | none => none
  | some rm0 =>
    let bufOut := rm0.create_buffer (vertexDataLen * 4) BUFFER_USAGE_VERTEX_BUFFER
    let rm1 := bufOut.1
    let vertex_buffer := bufOut.2.1
    let bufEvents := bufOut.2.2
    if env.image_ok then
      let image_view := rm1.nextHandle
      let sampler := rm1.nextHandle + 1
      let h0 := rm1.nextHandle + 2
      match VulkanApp.create_swapchain_dependent_resources env w 1 none h0 with
      | none => none
      | some (sdr, sdrEvents, h1) =>
        some
          ({ surface := 1
             device := 2
             queue := 3
             swapchain_dependent_resources := some sdr
             command_pool := 4
             command_buffers := [5, 6]
             resource_manager := rm1
             resource_command_buffer := 13
             vertex_buffer := vertex_buffer
             image_view := image_view
             sampler := sampler
             sync_objects :=
               { image_available_semaphores := [7, 9]
                 render_finished_semaphores := [8, 10]
                 in_flight_fences := [11, 12] }
             cur_frame := 0
             in_flight_frame := 0
             query_pool := h1
             nextHandle := h1 + 1 },
           [Event.CreateInstance 0, Event.CreateSurface 1, Event.CreateDevice 2,
            Event.CreateCommandPool 4, Event.AllocateCommandBuffers 5 2,
            Event.CreateSemaphore 7, Event.CreateSemaphore 8,
            Event.CreateSemaphore 9, Event.CreateSemaphore 10,
            Event.CreateFence 11 true, Event.CreateFence 12 true,
            Event.AllocateCommandBuffers 13 1]
           ++ bufEvents
           ++ [Event.ImageOp 0, Event.ImageOp 1, Event.ImageOp 2,
               Event.ImageOp 3]
           ++ sdrEvents
           ++ [Event.CreateQueryPool h1])
    else none

/-- `VulkanApp::draw_frame` (`mod.rs` lines 370-529): wait on and reset
the in-flight fence, acquire the next image, update the vertex buffer
through the resource manager, re-record the frame's command buffer
(render pass, vertex buffer, descriptor set, pipeline, one six-vertex
draw, the post-use barrier, timestamps), submit it, read the query
results, advance both frame counters by one modulo their bounds and
present.  `imageIndex` is the index the driver returns from
`acquire_next_image`. -/
def VulkanApp.draw_frame (app : VulkanApp) (vertexDataLen imageIndex : Nat) :
    Option (VulkanApp × List Event) :=
  match app.swapchain_dependent_resources with
  | none => none
  | some sdr =>
    match app.sync_objects.in_flight_fences.get? app.in_flight_frame,
        app.sync_objects.image_available_semaphores.get? app.cur_frame,
        app.sync_objects.render_finished_semaphores.get? app.cur_frame,
        app.command_buffers.get? app.cur_frame with
    | some fence, some image_sem, some render_sem, some cb =>
      match sdr.swapchain_framebuffers.get? imageIndex with
      | none => none
      | some fb =>
        match app.resource_manager.fill_buffer app.vertex_buffer
            vertexDataLen 4 with
        | Except.error _ => none
        | Except.ok (rm', fillEvents) =>
          some
            ({ app with
                 resource_manager := rm'
                 cur_frame := (app.cur_frame + 1) % app.command_buffers.length
                 in_flight_frame :=
                   (app.in_flight_frame + 1) % IN_FLIGHT_FRAMES },
             [Event.WaitForFences fence, Event.ResetFences fence,
              Event.AcquireNextImage sdr.swapchain image_sem]
             ++ fillEvents
             ++ [Event.ResetCommandBuffer cb,
                 Event.BeginCommandBuffer cb,
                 Event.CmdResetQueryPool cb,
                 Event.CmdWriteTimestamp cb,
                 Event.CmdBeginRenderPass cb sdr.render_pass fb,
                 Event.CmdBindVertexBuffers cb app.vertex_buffer.buffer,
                 Event.CmdBindDescriptorSets cb sdr.pipeline_layout
                   sdr.descriptor_set,
                 Event.CmdBindPipeline cb sdr.graphics_pipeline,
                 Event.CmdDraw cb 6 1 0 0,
                 Event.CmdEndRenderPass cb]
             ++ rm'.cmd_barrier_after_vertex_buffer_use cb app.vertex_buffer
             ++ [Event.CmdWriteTimestamp cb,
                 Event.EndCommandBuffer cb,
                 Event.QueueSubmit app.queue cb fence,
                 Event.GetQueryPoolResults,
                 Event.QueuePresent app.queue sdr.swapchain imageIndex])
    | _, _, _, _ => none

/-- `VulkanApp::recreate_swapchain` (`mod.rs` lines 878-927): loop until
the polled framebuffer size is nonzero in both dimensions, wait for the
device to go idle, destroy every swapchain-dependent resource of the old
generation (framebuffers, pipeline, pipeline layout, render pass, image
views), create the new generation passing the old swapchain handle, and
only then destroy the old swapchain.  `none` models a never-ending size
loop or a panic inside the creation. -/
def VulkanApp.recreate_swapchain (env : DeviceEnv) (w : WindowEnv)
    (app : VulkanApp) : Option (VulkanApp × List Event) :=
  match w.poll_sizes.find? (fun s => !(s.1 == 0 || s.2 == 0)) with
  | none => none
  | some _ =>
    match app.swapchain_dependent_resources with
    | none => some (app, [Event.DeviceWaitIdle])
    | some old =>
      match VulkanApp.create_swapchain_dependent_resources env w app.surface
          (some old.swapchain) app.nextHandle with
      | none => none
      | some (sdr', ctr, h1) =>
        some
          ({ app with
               swapchain_dependent_resources := some sdr'
               nextHandle := h1 },
           [Event.DeviceWaitIdle]
           ++ old.swapchain_framebuffers.map Event.DestroyFramebuffer
           ++ [Event.DestroyPipeline old.graphics_pipeline,
               Event.DestroyPipelineLayout old.pipeline_layout,
               Event.DestroyRenderPass old.render_pass]
           ++ old.swapchain_imageviews.map Event.DestroyImageView
           ++ ctr
           ++ [Event.DestroySwapchain old.swapchain])

/-- `VulkanApp::framebuffer_resize` (`mod.rs` lines 928-931): print the
new size and recreate the swapchain. -/
def VulkanApp.framebuffer_resize (env : DeviceEnv) (w : WindowEnv)
    (width height : Nat) (app : VulkanApp) :
    Option (VulkanApp × List Event) :=
  VulkanApp.recreate_swapchain env w app

end VkModel

namespace VkModel

namespace Legacy

/-! ### The legacy application of `src/vulkanapp.rs` -/

/-- The legacy swapchain-dependent resources (no descriptor set). -/
structure SwapchainDependentResources where
  swapchain : Nat
  swapchain_images : List Nat
  swapchain_format : Nat
  swapchain_extent : Nat × Nat
  swapchain_imageviews : List Nat
  swapchain_framebuffers : List Nat
  render_pass : Nat
  pipeline_layout : Nat
  graphics_pipeline : Nat
deriving DecidableEq, Repr

/-- `VulkanApp::create_swapchain_dependent_resources` of
`src/vulkanapp.rs` (lines 396-655): same format/present-mode/extent
preferences, but `min_image_count` is the surface minimum (no `+ 1`) and
there are no descriptor objects. -/
def create_swapchain_dependent_resources (env : DeviceEnv) (w : WindowEnv)
    (surface : Nat) (old_swapchain : Option Nat) (h0 : Nat) :
    Option (SwapchainDependentResources × List Event × Nat) :=
  match chooseSurfaceFormat env.formats, choosePresentMode env.present_modes with
  | some fmt, some present_mode =>
    let extent := chooseSwapchainExtent env.capabilities w.framebuffer_size
    let info : SwapchainCreateInfo :=
      { surface := surface
        min_image_count := env.capabilities.min_image_count
        image_color_space := fmt.color_space
        image_format := fmt.format
        image_extent := extent
        image_array_layers := 1
        image_usage := IMAGE_USAGE_COLOR_ATTACHMENT
        image_sharing_mode := SHARING_MODE_EXCLUSIVE
        pre_transform := env.capabilities.current_transform
        composite_alpha := COMPOSITE_ALPHA_OPAQUE
        present_mode := present_mode
        clipped := true
        old_swapchain := old_swapchain }
    let k := env.swapchain_image_count
    some
      ({ swapchain := h0
         swapchain_images := (List.range k).map (fun i => h0 + 1 + i)
         swapchain_format := fmt.format
         swapchain_extent := extent
         swapchain_imageviews := (List.range k).map (fun i => h0 + 1 + k + i)
         swapchain_framebuffers :=
           (List.range k).map (fun i => h0 + 2 + 2 * k + i)
         render_pass := h0 + 1 + 2 * k
         pipeline_layout := h0 + 4 + 3 * k
         graphics_pipeline := h0 + 5 + 3 * k },
       [Event.CreateSwapchain h0 info, Event.GetSwapchainImages h0]
       ++ (List.range k).map (fun i =>
            Event.CreateImageView (h0 + 1 + k + i) (h0 + 1 + i))
       ++ [Event.CreateRenderPass (h0 + 1 + 2 * k)]
       ++ (List.range k).map (fun i =>
            Event.CreateFramebuffer (h0 + 2 + 2 * k + i) (h0 + 1 + k + i))
       ++ [Event.ReadFile "shaders/vert.spv",
           Event.ReadFile "shaders/frag.spv",
           Event.CreateShaderModule (h0 + 2 + 3 * k)
             (env.files "shaders/vert.spv"),
           Event.CreateShaderModule (h0 + 3 + 3 * k)
             (env.files "shaders/frag.spv"),
           Event.CreatePipelineLayout (h0 + 4 + 3 * k),
           Event.CreateGraphicsPipeline (h0 + 5 + 3 * k)
             [(SHADER_STAGE_VERTEX, h0 + 2 + 3 * k, "main"),
              (SHADER_STAGE_FRAGMENT, h0 + 3 + 3 * k, "main")],
           Event.DestroyShaderModule (h0 + 2 + 3 * k),
           Event.DestroyShaderModule (h0 + 3 + 3 * k)],
       h0 + 6 + 3 * k)
  | _, _ => none

/-- The legacy per-frame synchronization objects (one of each). -/
structure SyncObjects where
  image_available_semaphore : Nat
  render_finished_semaphore : Nat
  in_flight_fence : Nat
deriving DecidableEq, Repr

/-- The legacy `VulkanApp` state (`src/vulkanapp.rs` lines 26-45). -/
structure VulkanApp where
  surface : Nat
  device : Nat
  queue : Nat
  swapchain_dependent_resources : Option SwapchainDependentResources
  command_pool : Nat
  command_buffers : List Nat
  sync_objects : SyncObjects
deriving DecidableEq, Repr

/-- Legacy `VulkanApp::new` (`src/vulkanapp.rs` lines 48-261): instance,
surface, device, then the swapchain-dependent resources, then the
command pool, one command buffer per swapchain image, one semaphore pair
and one signalled fence. -/
def VulkanApp.new (env : DeviceEnv) (w : WindowEnv) :
    Option (VulkanApp × List Event) :=
  match create_swapchain_dependent_resources env w 1 none 4 with
  | none => none
  | some (sdr, sdrEvents, h1) =>
    let n := sdr.swapchain_images.length
    some
      ({ surface := 1
         device := 2
         queue := 3
         swapchain_dependent_resources := some sdr
         command_pool := h1
         command_buffers := (List.range n).map (fun i => h1 + 1 + i)
         sync_objects :=
           { image_available_semaphore := h1 + 1 + n
             render_finished_semaphore := h1 + 2 + n
             in_flight_fence := h1 + 3 + n } },
       [Event.CreateInstance 0, Event.CreateSurface 1, Event.CreateDevice 2]
       ++ sdrEvents
       ++ [Event.CreateCommandPool h1,
           Event.AllocateCommandBuffers (h1 + 1) n,
           Event.CreateSemaphore (h1 + 1 + n),
           Event.CreateSemaphore (h1 + 2 + n),
           Event.CreateFence (h1 + 3 + n) true])

/-- Legacy `VulkanApp::draw_frame` (`src/vulkanapp.rs` lines 263-394):
wait on and reset the in-flight fence, acquire the next image, re-record
the command buffer at the image index (render pass, pipeline, one
three-vertex draw), reset the fence again, submit and present.  The
state is returned unchanged (the legacy app has no frame counters). -/
def VulkanApp.draw_frame (app : VulkanApp) (imageIndex : Nat) :
    Option (VulkanApp × List Event) :=
  match app.swapchain_dependent_resources with
  | none => none
  | some sdr =>
    match app.command_buffers.get? imageIndex,
        sdr.swapchain_framebuffers.get? imageIndex with
    | some cb, some fb =>
      some
        (app,
         [Event.WaitForFences app.sync_objects.in_flight_fence,
          Event.ResetFences app.sync_objects.in_flight_fence,
          Event.AcquireNextImage sdr.swapchain
            app.sync_objects.image_available_semaphore,
          Event.ResetCommandBuffer cb,
          Event.BeginCommandBuffer cb,
          Event.CmdBeginRenderPass cb sdr.render_pass fb,
          Event.CmdBindPipeline cb sdr.graphics_pipeline,
          Event.CmdDraw cb 3 1 0 0,
          Event.CmdEndRenderPass cb,
          Event.EndCommandBuffer cb,
          Event.ResetFences app.sync_objects.in_flight_fence,
          Event.QueueSubmit app.queue cb app.sync_objects.in_flight_fence,
          Event.QueuePresent app.queue sdr.swapchain imageIndex])
    | _, _ => none

end Legacy

end VkModel

namespace VkModel

/-! ### C3: swapchain recreation on framebuffer resize -/

/-- C3: a framebuffer-resize event triggers recreation: after the size
loop finds a nonzero framebuffer size, the device is waited idle, every
old-generation resource is destroyed (all framebuffers, the pipeline,
the pipeline layout, the render pass, all image views), the new
generation is created passing the old swapchain handle as
`old_swapchain`, only then is the old swapchain destroyed, and the
`swapchain_dependent_resources` field holds the new generation. -/
theorem framebuffer_resize_recreates (env : DeviceEnv) (w : WindowEnv)
    (width height : Nat) (app : VulkanApp)
    (old : SwapchainDependentResources)
    (sdr2 : SwapchainDependentResources) (ctr : List Event) (h1 : Nat)
    (sz : Nat × Nat)
    (hold : app.swapchain_dependent_resources = some old)
    (hpoll : w.poll_sizes.find? (fun s => !(s.1 == 0 || s.2 == 0)) = some sz)
    (hcreate : VulkanApp.create_swapchain_dependent_resources env w
      app.surface (some old.swapchain) app.nextHandle = some (sdr2, ctr, h1)) :
    VulkanApp.framebuffer_resize env w width height app = some
      ({ app with
           swapchain_dependent_resources := some sdr2
           nextHandle := h1 },
       [Event.DeviceWaitIdle]
       ++ old.swapchain_framebuffers.map Event.DestroyFramebuffer
       ++ [Event.DestroyPipeline old.graphics_pipeline,
           Event.DestroyPipelineLayout old.pipeline_layout,
           Event.DestroyRenderPass old.render_pass]
       ++ old.swapchain_imageviews.map Event.DestroyImageView
       ++ ctr
       ++ [Event.DestroySwapchain old.swapchain]) := by
  simp only [VulkanApp.framebuffer_resize, VulkanApp.recreate_swapchain,
    hpoll, hold, hcreate]

/-- An old swapchain generation used by the C3 witness. -/
def sampleOldSdr : SwapchainDependentResources :=
  { swapchain := 50, swapchain_images := [51], swapchain_format := 44,
    swapchain_extent := (800, 600), swapchain_imageviews := [52],
    swapchain_framebuffers := [53], render_pass := 54, pipeline_layout := 55,
    graphics_pipeline := 56, descriptor_set := 57 }

/-- A concrete application state holding `sampleOldSdr`. -/
def sampleApp : VulkanApp :=
  { surface := 1, device := 2, queue := 3,
    swapchain_dependent_resources := some sampleOldSdr,
    command_pool := 4, command_buffers := [5, 6],
    resource_manager := rmSingle, resource_command_buffer := 13,
    vertex_buffer := sampleResource, image_view := 20, sampler := 21,
    sync_objects :=
      { image_available_semaphores := [7, 9]
        render_finished_semaphores := [8, 10]
        in_flight_fences := [11, 12] },
    cur_frame := 0, in_flight_frame := 0, query_pool := 22, nextHandle := 100 }

/-- C3 witness: the recreation at the sample state. -/
theorem framebuffer_resize_recreates_witness :
    ∃ sdr2 ctr h1,
      VulkanApp.create_swapchain_dependent_resources sampleEnv sampleWindow
        sampleApp.surface (some sampleOldSdr.swapchain) sampleApp.nextHandle
        = some (sdr2, ctr, h1) ∧
      VulkanApp.framebuffer_resize sampleEnv sampleWindow 400 300 sampleApp
        = some
          ({ sampleApp with
               swapchain_dependent_resources := some sdr2
               nextHandle := h1 },
           [Event.DeviceWaitIdle]
           ++ sampleOldSdr.swapchain_framebuffers.map Event.DestroyFramebuffer
           ++ [Event.DestroyPipeline sampleOldSdr.graphics_pipeline,
               Event.DestroyPipelineLayout sampleOldSdr.pipeline_layout,
               Event.DestroyRenderPass sampleOldSdr.render_pass]
           ++ sampleOldSdr.swapchain_imageviews.map Event.DestroyImageView
           ++ ctr
           ++ [Event.DestroySwapchain sampleOldSdr.swapchain]) := by
  cases hc : VulkanApp.create_swapchain_dependent_resources sampleEnv
      sampleWindow sampleApp.surface (some sampleOldSdr.swapchain)
      sampleApp.nextHandle with
  | none =>
    have hs : (VulkanApp.create_swapchain_dependent_resources sampleEnv
        sampleWindow sampleApp.surface (some sampleOldSdr.swapchain)
        sampleApp.nextHandle).isSome = true := by decide
    rw [hc] at hs
    cases hs
  | some out =>
    obtain ⟨sdr2, ctr, h1⟩ := out
    exact ⟨sdr2, ctr, h1, rfl,
      framebuffer_resize_recreates sampleEnv sampleWindow 400 300 sampleApp
        sampleOldSdr sdr2 ctr h1 (800, 600) rfl rfl hc⟩

end VkModel

namespace VkModel

/-! ### C4: one draw command per frame -/

/-- Is the event a `cmd_draw` with the given vertex count? -/
def Event.isCmdDrawVertices (n : Nat) : Event → Bool
  | Event.CmdDraw _ v _ _ _ => v == n
  | _ => false

/-- A successful `fill_buffer` records no draw command. -/
theorem fill_buffer_ok_no_draw (rm : ResourceManager) (resource : Resource)
    (a b : Nat) (rm' : ResourceManager) (evs : List Event)
    (h : rm.fill_buffer resource a b = Except.ok (rm', evs)) :
    evs.countP Event.isCmdDraw = 0 := by
  by_cases hsize : a * b ≤ resource.size
  · cases hpol : rm.host_access_policy with
    | SingleBuffer mt =>
      rw [fill_buffer_single_eq rm resource a b mt hpol hsize] at h
      cases h
      simp [List.countP_cons, Event.isCmdDraw]
    | UseStaging host dev =>
      cases hfence : rm.transfer_completed_fence with
      | none =>
        simp only [ResourceManager.fill_buffer, hpol, hfence, hsize,
          if_true] at h
        cases h
      | some fence =>
        cases hsb : rm.stagingBuffer with
        | some sb =>
          rw [fill_buffer_staging_some_eq rm resource a b host dev fence sb
            hpol hfence hsb hsize] at h
          cases h
          simp [List.countP_cons, List.countP_append, Event.isCmdDraw,
            stagedTailEvents]
        | none =>
          rw [fill_buffer_staging_none_eq rm resource a b host dev fence
            hpol hfence hsb hsize] at h
          cases h
          simp [List.countP_cons, List.countP_append, Event.isCmdDraw,
            stagedTailEvents, stagingAllocEvents]
  · simp only [ResourceManager.fill_buffer, if_neg hsize] at h
    cases h

/-- The post-use vertex-buffer barrier records no draw command. -/
theorem cmd_barrier_no_draw (rm : ResourceManager) (cb : Nat)
    (vb : Resource) :
    (rm.cmd_barrier_after_vertex_buffer_use cb vb).countP Event.isCmdDraw
      = 0 := by
  unfold ResourceManager.cmd_barrier_after_vertex_buffer_use
  cases rm.host_access_policy <;> simp [Event.isCmdDraw]

/-- The legacy swapchain generation used by the C4 state. -/
def sampleLegacySdr : Legacy.SwapchainDependentResources :=
  { swapchain := 60, swapchain_images := [61], swapchain_format := 44,
    swapchain_extent := (800, 600), swapchain_imageviews := [62],
    swapchain_framebuffers := [63], render_pass := 64, pipeline_layout := 65,
    graphics_pipeline := 66 }

/-- A concrete legacy application state. -/
def sampleLegacyApp : Legacy.VulkanApp :=
  { surface := 1, device := 2, queue := 3,
    swapchain_dependent_resources := some sampleLegacySdr,
    command_pool := 70, command_buffers := [71],
    sync_objects :=
      { image_available_semaphore := 72
        render_finished_semaphore := 73
        in_flight_fence := 74 } }

/-- C4 counterexample: the legacy `draw_frame` of `src/vulkanapp.rs`
(cited by the claim at lines 323-326) records exactly one draw command,
but it draws 3 vertices, not the claimed 6-vertex quad. -/
theorem draw_frame_six_vertices_cex :
    ((Legacy.VulkanApp.draw_frame sampleLegacyApp 0).map
      (fun p => (p.2.countP Event.isCmdDraw,
                 p.2.countP (Event.isCmdDrawVertices 6))))
      = some (1, 0) := by decide

/-- C4 (amended): each `draw_frame` records exactly one draw command with
one instance and first vertex zero, bound to the generation's single
graphics pipeline; the `vulkanapp/mod.rs` version draws 6 vertices (the
quad), while the legacy `vulkanapp.rs` version draws 3 (a triangle). -/
theorem draw_frame_records_one_draw
    (app : VulkanApp) (vertexDataLen imageIndex : Nat)
    (sdr : SwapchainDependentResources)
    (fence image_sem render_sem cb fb : Nat)
    (rm' : ResourceManager) (fillEvents : List Event)
    (hsdr : app.swapchain_dependent_resources = some sdr)
    (hfence : app.sync_objects.in_flight_fences.get? app.in_flight_frame
      = some fence)
    (hsem1 : app.sync_objects.image_available_semaphores.get? app.cur_frame
      = some image_sem)
    (hsem2 : app.sync_objects.render_finished_semaphores.get? app.cur_frame
      = some render_sem)
    (hcb : app.command_buffers.get? app.cur_frame = some cb)
    (hfb : sdr.swapchain_framebuffers.get? imageIndex = some fb)
    (hfill : app.resource_manager.fill_buffer app.vertex_buffer
      vertexDataLen 4 = Except.ok (rm', fillEvents))
    (lapp : Legacy.VulkanApp) (lidx : Nat)
    (lsdr : Legacy.SwapchainDependentResources) (lcb lfb : Nat)
    (hlsdr : lapp.swapchain_dependent_resources = some lsdr)
    (hlcb : lapp.command_buffers.get? lidx = some lcb)
    (hlfb : lsdr.swapchain_framebuffers.get? lidx = some lfb) :
    (∃ app' tr,
      VulkanApp.draw_frame app vertexDataLen imageIndex = some (app', tr) ∧
      tr.countP Event.isCmdDraw = 1 ∧
      Event.CmdDraw cb 6 1 0 0 ∈ tr ∧
      Event.CmdBindPipeline cb sdr.graphics_pipeline ∈ tr) ∧
    (∃ ltr,
      Legacy.VulkanApp.draw_frame lapp lidx = some (lapp, ltr) ∧
      ltr.countP Event.isCmdDraw = 1 ∧
      Event.CmdDraw lcb 3 1 0 0 ∈ ltr ∧
      Event.CmdBindPipeline lcb lsdr.graphics_pipeline ∈ ltr) := by
  constructor
  · simp only [VulkanApp.draw_frame, hsdr, hfence, hsem1, hsem2, hcb, hfb,
      hfill]
    refine ⟨_, _, rfl, ?_, ?_, ?_⟩
    · simp [List.countP_append, List.countP_cons, Event.isCmdDraw,
        fill_buffer_ok_no_draw _ _ _ _ _ _ hfill, cmd_barrier_no_draw]
    · simp
    · simp
  · simp only [Legacy.VulkanApp.draw_frame, hlsdr, hlcb, hlfb]
    refine ⟨_, rfl, ?_, ?_, ?_⟩
    · simp [List.countP_cons, Event.isCmdDraw]
    · simp
    · simp

/-- C4 witness: both draw paths at the concrete states. -/
theorem draw_frame_records_one_draw_witness :
    (∃ app' tr,
      VulkanApp.draw_frame sampleApp 2 0 = some (app', tr) ∧
      tr.countP Event.isCmdDraw = 1 ∧
      Event.CmdDraw 5 6 1 0 0 ∈ tr ∧
      Event.CmdBindPipeline 5 sampleOldSdr.graphics_pipeline ∈ tr) ∧
    (∃ ltr,
      Legacy.VulkanApp.draw_frame sampleLegacyApp 0
        = some (sampleLegacyApp, ltr) ∧
      ltr.countP Event.isCmdDraw = 1 ∧
      Event.CmdDraw 71 3 1 0 0 ∈ ltr ∧
      Event.CmdBindPipeline 71 sampleLegacySdr.graphics_pipeline ∈ ltr) :=
  draw_frame_records_one_draw sampleApp 2 0 sampleOldSdr 11 7 8 5 53
    rmSingle
    [Event.MapMemory sampleResource.memory,
     Event.WriteMapped sampleResource.memory (2 * 4),
     Event.UnmapMemory sampleResource.memory]
    rfl rfl rfl rfl rfl rfl rfl
    sampleLegacyApp 0 sampleLegacySdr 71 63 rfl rfl rfl

end VkModel

namespace VkModel

/-! ### C7: initialization order of the graphics objects -/

/-- The eight object kinds named by the claimed initialization order. -/
inductive ObjKind where
  | inst
  | surfaceK
  | deviceK
  | swapchainK
  | renderPassK
  | pipelineK
  | commandBuffersK
  | syncK
deriving DecidableEq, Repr

/-- The object kind created by an event, when any. -/
def eventKind : Event → Option ObjKind
  | Event.CreateInstance _ => some ObjKind.inst
  | Event.CreateSurface _ => some ObjKind.surfaceK
  | Event.CreateDevice _ => some ObjKind.deviceK
  | Event.CreateSwapchain _ _ => some ObjKind.swapchainK
  | Event.CreateRenderPass _ => some ObjKind.renderPassK
  | Event.CreateGraphicsPipeline _ _ => some ObjKind.pipelineK
  | Event.AllocateCommandBuffers _ _ => some ObjKind.commandBuffersK
  | Event.CreateSemaphore _ => some ObjKind.syncK
  | Event.CreateFence _ _ => some ObjKind.syncK
  | _ => none

/-- The sequence of claimed-order object kinds created along a trace. -/
def creationKinds (tr : List Event) : List ObjKind :=
  tr.filterMap eventKind

/-- The position of the first creation of kind `k`. -/
def firstKindIdx (ks : List ObjKind) (k : ObjKind) : Option Nat :=
  ks.findIdx? (fun x => x == k)

/-- Every kind in the given order list is created, and their first
creations appear in that order. -/
def kindsInOrder (ks : List ObjKind) : List ObjKind → Bool
  | [] => true
  | [k] => (firstKindIdx ks k).isSome
  | k1 :: k2 :: rest =>
    match firstKindIdx ks k1, firstKindIdx ks k2 with
    | some i1, some i2 => decide (i1 < i2) && kindsInOrder ks (k2 :: rest)
    | _, _ => false

/-- The order the claim asserts: instance, device, surface, swapchain,
render pass, pipeline, command buffers, synchronization primitives. -/
def claimInitOrder : List ObjKind :=
  [ObjKind.inst, ObjKind.deviceK, ObjKind.surfaceK, ObjKind.swapchainK,
   ObjKind.renderPassK, ObjKind.pipelineK, ObjKind.commandBuffersK,
   ObjKind.syncK]

/-- A mapped segment of kind-less events contributes no creation kinds. -/
theorem creationKinds_map_none {α : Type} (f : α → Event)
    (h : ∀ x, eventKind (f x) = none) (l : List α) :
    List.filterMap eventKind (l.map f) = [] := by
  induction l with
  | nil => rfl
  | cons a t ih =>
    simp only [List.map_cons, List.filterMap_cons, h a]
    exact ih

/-- The creation kinds of one `create_swapchain_dependent_resources` run:
swapchain, then render pass, then pipeline. -/
theorem creationKinds_create (env : DeviceEnv) (w : WindowEnv)
    (surface : Nat) (old : Option Nat) (h0 : Nat)
    (sdr : SwapchainDependentResources) (ev : List Event) (h1 : Nat)
    (h : VulkanApp.create_swapchain_dependent_resources env w surface old h0
      = some (sdr, ev, h1)) :
    creationKinds ev
      = [ObjKind.swapchainK, ObjKind.renderPassK, ObjKind.pipelineK] := by
  unfold VulkanApp.create_swapchain_dependent_resources at h
  cases hf : chooseSurfaceFormat env.formats with
  | none => rw [hf] at h; cases h
  | some fmt =>
    cases hp : choosePresentMode env.present_modes with
    | none => rw [hf, hp] at h; cases h
    | some pm =>
      rw [hf, hp] at h
      simp only [Option.some.injEq] at h
      obtain ⟨-, rfl, -⟩ := h
      simp only [creationKinds, List.filterMap_append,
        creationKinds_map_none (fun i => Event.CreateImageView
          (h0 + 1 + env.swapchain_image_count + i) (h0 + 1 + i))
          (fun _ => rfl),
        creationKinds_map_none (fun i => Event.CreateFramebuffer
          (h0 + 2 + 2 * env.swapchain_image_count + i)
          (h0 + 1 + env.swapchain_image_count + i)) (fun _ => rfl)]
      rfl

/-- Same for the legacy creation routine. -/
theorem creationKinds_legacy_create (env : DeviceEnv) (w : WindowEnv)
    (surface : Nat) (old : Option Nat) (h0 : Nat)
    (sdr : Legacy.SwapchainDependentResources) (ev : List Event) (h1 : Nat)
    (h : Legacy.create_swapchain_dependent_resources env w surface old h0
      = some (sdr, ev, h1)) :
    creationKinds ev
      = [ObjKind.swapchainK, ObjKind.renderPassK, ObjKind.pipelineK] := by
  unfold Legacy.create_swapchain_dependent_resources at h
  cases hf : chooseSurfaceFormat env.formats with
  | none => rw [hf] at h; cases h
  | some fmt =>
    cases hp : choosePresentMode env.present_modes with
    | none => rw [hf, hp] at h; cases h
    | some pm =>
      rw [hf, hp] at h
      simp only [Option.some.injEq] at h
      obtain ⟨-, rfl, -⟩ := h
      simp only [creationKinds, List.filterMap_append,
        creationKinds_map_none (fun i => Event.CreateImageView
          (h0 + 1 + env.swapchain_image_count + i) (h0 + 1 + i))
          (fun _ => rfl),
        creationKinds_map_none (fun i => Event.CreateFramebuffer
          (h0 + 2 + 2 * env.swapchain_image_count + i)
          (h0 + 1 + env.swapchain_image_count + i)) (fun _ => rfl)]
      rfl

/-- The creation kinds of one `create_buffer` run: the signalled transfer
fence under `UseStaging`, nothing under `SingleBuffer`. -/
theorem creationKinds_create_buffer (rm : ResourceManager)
    (size usage : Nat) :
    creationKinds (rm.create_buffer size usage).2.2
      = (match rm.host_access_policy with
         | HostAccessPolicy.UseStaging _ _ => [ObjKind.syncK]
         | HostAccessPolicy.SingleBuffer _ => []) := by
  unfold ResourceManager.create_buffer
  cases rm.host_access_policy <;> rfl

end VkModel

namespace VkModel

/-- C7 counterexample: both embedded `VulkanApp::new` versions succeed at
the sample environment, yet the claimed order instance → device → surface
→ swapchain → render pass → pipeline → command buffers → sync fails on
each of them (the surface is created before the device; in `mod.rs` the
command buffers and sync objects additionally precede the swapchain). -/
theorem init_order_claim_cex :
    (VulkanApp.new sampleEnv sampleWindow 6).isSome = true ∧
    ((VulkanApp.new sampleEnv sampleWindow 6).map
      (fun p => kindsInOrder (creationKinds p.2) claimInitOrder))
      = some false ∧
    (Legacy.VulkanApp.new sampleEnv sampleWindow).isSome = true ∧
    ((Legacy.VulkanApp.new sampleEnv sampleWindow).map
      (fun p => kindsInOrder (creationKinds p.2) claimInitOrder))
      = some false := by
  refine ⟨by decide, by decide, by decide, by decide⟩

/-- C7 (amended): in both versions the creation order is instance, then
surface, then device.  The legacy `vulkanapp.rs` then proceeds swapchain
→ render pass → pipeline → command buffers → sync primitives; the
`vulkanapp/mod.rs` version instead creates the command buffers and the
sync primitives (and, under `UseStaging`, the transfer fence) before the
swapchain, render pass and pipeline. -/
theorem init_creation_order (env : DeviceEnv) (w : WindowEnv)
    (vertexDataLen : Nat) (rm0 : ResourceManager)
    (sdr : SwapchainDependentResources) (sdrEvents : List Event) (h1 : Nat)
    (env2 : DeviceEnv) (w2 : WindowEnv)
    (lsdr : Legacy.SwapchainDependentResources) (lsdrEvents : List Event)
    (lh1 : Nat)
    (hrm : ResourceManager.new env.memory_properties 3 13 14 = some rm0)
    (himg : env.image_ok = true)
    (hc : VulkanApp.create_swapchain_dependent_resources env w 1 none
      ((rm0.create_buffer (vertexDataLen * 4)
        BUFFER_USAGE_VERTEX_BUFFER).1.nextHandle + 2)
      = some (sdr, sdrEvents, h1))
    (hlc : Legacy.create_swapchain_dependent_resources env2 w2 1 none 4
      = some (lsdr, lsdrEvents, lh1)) :
    (∃ app tr extra,
      VulkanApp.new env w vertexDataLen = some (app, tr) ∧
      (extra = [] ∨ extra = [ObjKind.syncK]) ∧
      creationKinds tr =
        [ObjKind.inst, ObjKind.surfaceK, ObjKind.deviceK,
         ObjKind.commandBuffersK, ObjKind.syncK, ObjKind.syncK,
         ObjKind.syncK, ObjKind.syncK, ObjKind.syncK, ObjKind.syncK,
         ObjKind.commandBuffersK] ++ extra
        ++ [ObjKind.swapchainK, ObjKind.renderPassK, ObjKind.pipelineK] ∧
      kindsInOrder (creationKinds tr)
        [ObjKind.inst, ObjKind.surfaceK, ObjKind.deviceK,
         ObjKind.commandBuffersK, ObjKind.syncK] = true ∧
      kindsInOrder (creationKinds tr)
        [ObjKind.inst, ObjKind.surfaceK, ObjKind.deviceK,
         ObjKind.swapchainK, ObjKind.renderPassK, ObjKind.pipelineK]
        = true ∧
      kindsInOrder (creationKinds tr) claimInitOrder = false) ∧
    (∃ lapp ltr,
      Legacy.VulkanApp.new env2 w2 = some (lapp, ltr) ∧
      creationKinds ltr =
        [ObjKind.inst, ObjKind.surfaceK, ObjKind.deviceK,
         ObjKind.swapchainK, ObjKind.renderPassK, ObjKind.pipelineK,
         ObjKind.commandBuffersK, ObjKind.syncK, ObjKind.syncK,
         ObjKind.syncK] ∧
      kindsInOrder (creationKinds ltr)
        [ObjKind.inst, ObjKind.surfaceK, ObjKind.deviceK,
         ObjKind.swapchainK, ObjKind.renderPassK, ObjKind.pipelineK,
         ObjKind.commandBuffersK, ObjKind.syncK] = true ∧
      kindsInOrder (creationKinds ltr) claimInitOrder = false) := by
  constructor
  · have hbuf := creationKinds_create_buffer rm0 (vertexDataLen * 4)
      BUFFER_USAGE_VERTEX_BUFFER
    have hsdrk := creationKinds_create env w 1 none
      ((rm0.create_buffer (vertexDataLen * 4)
        BUFFER_USAGE_VERTEX_BUFFER).1.nextHandle + 2) sdr sdrEvents h1 hc
    simp only [VulkanApp.new, hrm, himg, if_true, hc]
    cases hpol : rm0.host_access_policy with
    | UseStaging host dev =>
      rw [hpol] at hbuf
      refine ⟨_, _, [ObjKind.syncK], rfl, Or.inr rfl, ?_, ?_, ?_, ?_⟩
      · simp only [creationKinds, List.filterMap_append] at hbuf hsdrk ⊢
        rw [hbuf, hsdrk]
        rfl
      all_goals
        have hck : creationKinds
            ([Event.CreateInstance 0, Event.CreateSurface 1,
              Event.CreateDevice 2, Event.CreateCommandPool 4,
              Event.AllocateCommandBuffers 5 2, Event.CreateSemaphore 7,
              Event.CreateSemaphore 8, Event.CreateSemaphore 9,
              Event.CreateSemaphore 10, Event.CreateFence 11 true,
              Event.CreateFence 12 true, Event.AllocateCommandBuffers 13 1]
             ++ (rm0.create_buffer (vertexDataLen * 4)
                  BUFFER_USAGE_VERTEX_BUFFER).2.2
             ++ [Event.ImageOp 0, Event.ImageOp 1, Event.ImageOp 2,
                 Event.ImageOp 3]
             ++ sdrEvents
             ++ [Event.CreateQueryPool h1]) =
            [ObjKind.inst, ObjKind.surfaceK, ObjKind.deviceK,
             ObjKind.commandBuffersK, ObjKind.syncK, ObjKind.syncK,
             ObjKind.syncK, ObjKind.syncK, ObjKind.syncK, ObjKind.syncK,
             ObjKind.commandBuffersK, ObjKind.syncK, ObjKind.swapchainK,
             ObjKind.renderPassK, ObjKind.pipelineK] := by
          simp only [creationKinds, List.filterMap_append] at hbuf hsdrk ⊢
          rw [hbuf, hsdrk]
          rfl
      · rw [hck]; decide
      · rw [hck]; decide
      · rw [hck]; decide
    | SingleBuffer mt =>
      rw [hpol] at hbuf
      refine ⟨_, _, [], rfl, Or.inl rfl, ?_, ?_, ?_, ?_⟩
      · simp only [creationKinds, List.filterMap_append] at hbuf hsdrk ⊢
        rw [hbuf, hsdrk]
        rfl
      all_goals
        have hck : creationKinds
            ([Event.CreateInstance 0, Event.CreateSurface 1,
              Event.CreateDevice 2, Event.CreateCommandPool 4,
              Event.AllocateCommandBuffers 5 2, Event.CreateSemaphore 7,
              Event.CreateSemaphore 8, Event.CreateSemaphore 9,
              Event.CreateSemaphore 10, Event.CreateFence 11 true,
              Event.CreateFence 12 true, Event.AllocateCommandBuffers 13 1]
             ++ (rm0.create_buffer (vertexDataLen * 4)
                  BUFFER_USAGE_VERTEX_BUFFER).2.2
             ++ [Event.ImageOp 0, Event.ImageOp 1, Event.ImageOp 2,
                 Event.ImageOp 3]
             ++ sdrEvents
             ++ [Event.CreateQueryPool h1]) =
            [ObjKind.inst, ObjKind.surfaceK, ObjKind.deviceK,
             ObjKind.commandBuffersK, ObjKind.syncK, ObjKind.syncK,
             ObjKind.syncK, ObjKind.syncK, ObjKind.syncK, ObjKind.syncK,
             ObjKind.commandBuffersK, ObjKind.swapchainK,
             ObjKind.renderPassK, ObjKind.pipelineK] := by
          simp only [creationKinds, List.filterMap_append] at hbuf hsdrk ⊢
          rw [hbuf, hsdrk]
          rfl
      · rw [hck]; decide
      · rw [hck]; decide
      · rw [hck]; decide
  · have hlk := creationKinds_legacy_create env2 w2 1 none 4 lsdr lsdrEvents
      lh1 hlc
    simp only [Legacy.VulkanApp.new, hlc]
    refine ⟨_, _, rfl, ?_, ?_, ?_⟩
    all_goals
      have hck : creationKinds
          ([Event.CreateInstance 0, Event.CreateSurface 1,
            Event.CreateDevice 2]
           ++ lsdrEvents
           ++ [Event.CreateCommandPool lh1,
               Event.AllocateCommandBuffers (lh1 + 1)
                 lsdr.swapchain_images.length,
               Event.CreateSemaphore (lh1 + 1 + lsdr.swapchain_images.length),
               Event.CreateSemaphore (lh1 + 2 + lsdr.swapchain_images.length),
               Event.CreateFence (lh1 + 3 + lsdr.swapchain_images.length)
                 true]) =
          [ObjKind.inst, ObjKind.surfaceK, ObjKind.deviceK,
           ObjKind.swapchainK, ObjKind.renderPassK, ObjKind.pipelineK,
           ObjKind.commandBuffersK, ObjKind.syncK, ObjKind.syncK,
           ObjKind.syncK] := by
        simp only [creationKinds, List.filterMap_append] at hlk ⊢
        rw [hlk]
        rfl
    · rw [hck]
    · rw [hck]; decide
    · rw [hck]; decide

end VkModel

namespace VkModel

/-- The resource manager produced by `ResourceManager::new` at the sample
environment (its single memory type is device-local and host-coherent). -/
def sampleRm0 : ResourceManager :=
  { resources := [], host_access_policy := HostAccessPolicy.SingleBuffer 0,
    stagingBuffer := none, queue := 3, command_buffer := 13,
    transfer_completed_fence := none, nextHandle := 14 }

/-- C7 witness: the amended order facts at the sample environment. -/
theorem init_creation_order_witness :
    (∃ app tr extra,
      VulkanApp.new sampleEnv sampleWindow 6 = some (app, tr) ∧
      (extra = [] ∨ extra = [ObjKind.syncK]) ∧
      creationKinds tr =
        [ObjKind.inst, ObjKind.surfaceK, ObjKind.deviceK,
         ObjKind.commandBuffersK, ObjKind.syncK, ObjKind.syncK,
         ObjKind.syncK, ObjKind.syncK, ObjKind.syncK, ObjKind.syncK,
         ObjKind.commandBuffersK] ++ extra
        ++ [ObjKind.swapchainK, ObjKind.renderPassK, ObjKind.pipelineK] ∧
      kindsInOrder (creationKinds tr)
        [ObjKind.inst, ObjKind.surfaceK, ObjKind.deviceK,
         ObjKind.commandBuffersK, ObjKind.syncK] = true ∧
      kindsInOrder (creationKinds tr)
        [ObjKind.inst, ObjKind.surfaceK, ObjKind.deviceK,
         ObjKind.swapchainK, ObjKind.renderPassK, ObjKind.pipelineK]
        = true ∧
      kindsInOrder (creationKinds tr) claimInitOrder = false) ∧
    (∃ lapp ltr,
      Legacy.VulkanApp.new sampleEnv sampleWindow = some (lapp, ltr) ∧
      creationKinds ltr =
        [ObjKind.inst, ObjKind.surfaceK, ObjKind.deviceK,
         ObjKind.swapchainK, ObjKind.renderPassK, ObjKind.pipelineK,
         ObjKind.commandBuffersK, ObjKind.syncK, ObjKind.syncK,
         ObjKind.syncK] ∧
      kindsInOrder (creationKinds ltr)
        [ObjKind.inst, ObjKind.surfaceK, ObjKind.deviceK,
         ObjKind.swapchainK, ObjKind.renderPassK, ObjKind.pipelineK,
         ObjKind.commandBuffersK, ObjKind.syncK] = true ∧
      kindsInOrder (creationKinds ltr) claimInitOrder = false) := by
  cases hc : VulkanApp.create_swapchain_dependent_resources sampleEnv
      sampleWindow 1 none
      ((sampleRm0.create_buffer (6 * 4)
        BUFFER_USAGE_VERTEX_BUFFER).1.nextHandle + 2) with
  | none =>
    have hs : (VulkanApp.create_swapchain_dependent_resources sampleEnv
        sampleWindow 1 none ((sampleRm0.create_buffer (6 * 4)
          BUFFER_USAGE_VERTEX_BUFFER).1.nextHandle + 2)).isSome = true := by
      decide
    rw [hc] at hs
    cases hs
  | some out =>
    obtain ⟨sdr, sdrEvents, h1⟩ := out
    cases hlc : Legacy.create_swapchain_dependent_resources sampleEnv
        sampleWindow 1 none 4 with
    | none =>
      have hs : (Legacy.create_swapchain_dependent_resources sampleEnv
          sampleWindow 1 none 4).isSome = true := by decide
      rw [hlc] at hs
      cases hs
    | some lout =>
      obtain ⟨lsdr, lsdrEvents, lh1⟩ := lout
      exact init_creation_order sampleEnv sampleWindow 6 sampleRm0 sdr
        sdrEvents h1 sampleEnv sampleWindow lsdr lsdrEvents lh1 rfl rfl hc hlc

end VkModel

namespace VkModel

/-! ### C9: the frame counters -/

/-- The reachable application states: a fresh `VulkanApp::new` result,
closed under `draw_frame` and `framebuffer_resize`. -/
inductive Reachable : VulkanApp → Prop where
  | init (env : DeviceEnv) (w : WindowEnv) (n : Nat) (app : VulkanApp)
      (tr : List Event) :
      VulkanApp.new env w n = some (app, tr) → Reachable app
  | draw (app : VulkanApp) (n idx : Nat) (app' : VulkanApp)
      (tr : List Event) :
      Reachable app → VulkanApp.draw_frame app n idx = some (app', tr) →
      Reachable app'
  | resize (env : DeviceEnv) (w : WindowEnv) (a b : Nat)
      (app app' : VulkanApp) (tr : List Event) :
      Reachable app →
      VulkanApp.framebuffer_resize env w a b app = some (app', tr) →
      Reachable app'

/-- A fresh application has two command buffers and zero counters. -/
theorem new_fields (env : DeviceEnv) (w : WindowEnv) (n : Nat)
    (app : VulkanApp) (tr : List Event)
    (h : VulkanApp.new env w n = some (app, tr)) :
    app.command_buffers = [5, 6] ∧ app.cur_frame = 0 ∧
    app.in_flight_frame = 0 := by
  cases hrm : ResourceManager.new env.memory_properties 3 13 14 with
  | none =>
    simp only [VulkanApp.new, hrm] at h
    exact Option.noConfusion h
  | some rm0 =>
    simp only [VulkanApp.new, hrm] at h
    by_cases himg : env.image_ok = true
    · simp only [himg, if_true] at h
      cases hc : VulkanApp.create_swapchain_dependent_resources env w 1 none
          ((rm0.create_buffer (n * 4)
            BUFFER_USAGE_VERTEX_BUFFER).1.nextHandle + 2) with
      | none =>
        simp only [hc] at h
        exact Option.noConfusion h
      | some out =>
        obtain ⟨sdr, sdrEvents, h1⟩ := out
        simp only [hc, Option.some.injEq, Prod.mk.injEq] at h
        obtain ⟨happ, htr⟩ := h
        subst happ
        exact ⟨rfl, rfl, rfl⟩
    · simp only [if_neg himg] at h
      exact Option.noConfusion h

/-- One `draw_frame` step only replaces the resource manager and advances
the two counters modulo their bounds. -/
theorem draw_frame_step (app : VulkanApp) (n idx : Nat) (app' : VulkanApp)
    (tr : List Event)
    (h : VulkanApp.draw_frame app n idx = some (app', tr)) :
    ∃ rm2, app' = { app with
                      resource_manager := rm2
                      cur_frame :=
                        (app.cur_frame + 1) % app.command_buffers.length
                      in_flight_frame :=
                        (app.in_flight_frame + 1) % IN_FLIGHT_FRAMES } := by
  cases hsdr : app.swapchain_dependent_resources with
  | none =>
    simp only [VulkanApp.draw_frame, hsdr] at h
    exact Option.noConfusion h
  | some sdr =>
    simp only [VulkanApp.draw_frame, hsdr] at h
    cases hf : app.sync_objects.in_flight_fences.get? app.in_flight_frame with
    | none =>
      simp only [hf] at h
      exact Option.noConfusion h
    | some fence =>
      cases hs1 : app.sync_objects.image_available_semaphores.get?
          app.cur_frame with
      | none =>
        simp only [hf, hs1] at h
        exact Option.noConfusion h
      | some image_sem =>
        cases hs2 : app.sync_objects.render_finished_semaphores.get?
            app.cur_frame with
        | none =>
          simp only [hf, hs1, hs2] at h
          exact Option.noConfusion h
        | some render_sem =>
          cases hcb : app.command_buffers.get? app.cur_frame with
          | none =>
            simp only [hf, hs1, hs2, hcb] at h
            exact Option.noConfusion h
          | some cb =>
            cases hfb : sdr.swapchain_framebuffers.get? idx with
            | none =>
              simp only [hf, hs1, hs2, hcb, hfb] at h
              exact Option.noConfusion h
            | some fb =>
              cases hfill : app.resource_manager.fill_buffer
                  app.vertex_buffer n 4 with
              | error e =>
                simp only [hf, hs1, hs2, hcb, hfb, hfill] at h
                exact Option.noConfusion h
              | ok out =>
                obtain ⟨rm2, fillEvents⟩ := out
                simp only [hf, hs1, hs2, hcb, hfb, hfill,
                  Option.some.injEq, Prod.mk.injEq] at h
                obtain ⟨happ, htr⟩ := h
                subst happ
                exact ⟨rm2, rfl⟩

/-- A swapchain recreation leaves the frame counters and the command
buffers untouched. -/
theorem recreate_counters (env : DeviceEnv) (w : WindowEnv)
    (app app' : VulkanApp) (tr : List Event)
    (h : VulkanApp.recreate_swapchain env w app = some (app', tr)) :
    app'.cur_frame = app.cur_frame ∧
    app'.in_flight_frame = app.in_flight_frame ∧
    app'.command_buffers = app.command_buffers := by
  cases hpoll : w.poll_sizes.find? (fun s => !(s.1 == 0 || s.2 == 0)) with
  | none =>
    simp only [VulkanApp.recreate_swapchain, hpoll] at h
    exact Option.noConfusion h
  | some sz =>
    simp only [VulkanApp.recreate_swapchain, hpoll] at h
    cases hsdr : app.swapchain_dependent_resources with
    | none =>
      simp only [hsdr, Option.some.injEq, Prod.mk.injEq] at h
      obtain ⟨happ, htr⟩ := h
      subst happ
      exact ⟨rfl, rfl, rfl⟩
    | some old =>
      simp only [hsdr] at h
      cases hc : VulkanApp.create_swapchain_dependent_resources env w
          app.surface (some old.swapchain) app.nextHandle with
      | none =>
        simp only [hc] at h
        exact Option.noConfusion h
      | some out =>
        obtain ⟨sdr2, ctr, h1⟩ := out
        simp only [hc, Option.some.injEq, Prod.mk.injEq] at h
        obtain ⟨happ, htr⟩ := h
        subst happ
        exact ⟨rfl, rfl, rfl⟩

/-- C9 counterexample: a reachable state (fresh from `new` under the
`UseStaging` policy) whose first `draw_frame` changes the
`resource_manager` field (the staging buffer is allocated), contradicting
the claim that all fields other than the recorded command buffer and the
sync-object states are left unchanged. -/
theorem frame_counters_claim_cex :
    ((VulkanApp.new
        { memory_properties :=
            { memory_type_count := 2
              memory_types := [{ property_flags := 0x4 },
                { property_flags := 0x1 }] }
          capabilities :=
            { min_image_count := 2
              current_extent := (800, 600)
              min_image_extent := (1, 1)
              max_image_extent := (4096, 4096)
              current_transform := 1 }
          formats := [{ format := 44, color_space := 0 }]
          present_modes := [PRESENT_MODE_FIFO]
          swapchain_image_count := 1
          image_ok := true
          files := fun _ => [3, 2, 2, 119] } sampleWindow 6).bind
      (fun p => (VulkanApp.draw_frame p.1 6 0).map
        (fun q => decide (q.1.resource_manager = p.1.resource_manager))))
      = some false := by decide

/-- C9 (amended): in every reachable state there are exactly two command
buffers and `cur_frame < command_buffers.len()`,
`in_flight_frame < IN_FLIGHT_FRAMES` (both 2); both counters start at 0,
and every completed `draw_frame` advances each by exactly one modulo its
bound, leaving every other `VulkanApp` field except the resource manager
(whose staging state the upload may change) untouched. -/
theorem frame_counters_invariant (app : VulkanApp) (h : Reachable app) :
    app.command_buffers.length = 2 ∧
    app.cur_frame < app.command_buffers.length ∧
    app.in_flight_frame < IN_FLIGHT_FRAMES ∧
    (∀ n idx app' tr,
      VulkanApp.draw_frame app n idx = some (app', tr) →
      app'.cur_frame = (app.cur_frame + 1) % app.command_buffers.length ∧
      app'.in_flight_frame = (app.in_flight_frame + 1) % IN_FLIGHT_FRAMES ∧
      app'.surface = app.surface ∧
      app'.device = app.device ∧
      app'.queue = app.queue ∧
      app'.swapchain_dependent_resources
        = app.swapchain_dependent_resources ∧
      app'.command_pool = app.command_pool ∧
      app'.command_buffers = app.command_buffers ∧
      app'.resource_command_buffer = app.resource_command_buffer ∧
      app'.vertex_buffer = app.vertex_buffer ∧
      app'.image_view = app.image_view ∧
      app'.sampler = app.sampler ∧
      app'.sync_objects = app.sync_objects ∧
      app'.query_pool = app.query_pool ∧
      app'.nextHandle = app.nextHandle) := by
  have hstep : ∀ (a : VulkanApp), ∀ n idx a' tr,
      VulkanApp.draw_frame a n idx = some (a', tr) →
      a'.cur_frame = (a.cur_frame + 1) % a.command_buffers.length ∧
      a'.in_flight_frame = (a.in_flight_frame + 1) % IN_FLIGHT_FRAMES ∧
      a'.surface = a.surface ∧ a'.device = a.device ∧
      a'.queue = a.queue ∧
      a'.swapchain_dependent_resources = a.swapchain_dependent_resources ∧
      a'.command_pool = a.command_pool ∧
      a'.command_buffers = a.command_buffers ∧
      a'.resource_command_buffer = a.resource_command_buffer ∧
      a'.vertex_buffer = a.vertex_buffer ∧
      a'.image_view = a.image_view ∧ a'.sampler = a.sampler ∧
      a'.sync_objects = a.sync_objects ∧
      a'.query_pool = a.query_pool ∧
      a'.nextHandle = a.nextHandle := by
    intro a n idx a' tr hd
    obtain ⟨rm2, heq⟩ := draw_frame_step a n idx a' tr hd
    subst heq
    exact ⟨rfl, rfl, rfl, rfl, rfl, rfl, rfl, rfl, rfl, rfl, rfl, rfl, rfl,
      rfl, rfl⟩
  induction h with
  | init env w n app tr hn =>
    obtain ⟨hcb, hc0, hi0⟩ := new_fields env w n app tr hn
    refine ⟨by rw [hcb]; decide, ?_, ?_, hstep app⟩
    · rw [hc0, hcb]; decide
    · rw [hi0]; decide
  | draw app n idx app' tr hr hd ih =>
    obtain ⟨hlen, hcur, hinf, -⟩ := ih
    obtain ⟨hc, hi, -, -, -, -, -, hcb, -⟩ := hstep app n idx app' tr hd
    refine ⟨by rw [hcb, hlen], ?_, ?_, hstep app'⟩
    · rw [hc, hcb]
      exact Nat.mod_lt _ (by omega)
    · rw [hi]
      exact Nat.mod_lt _ (by decide)
  | resize env w a b app app' tr hr hre ih =>
    obtain ⟨hlen, hcur, hinf, -⟩ := ih
    obtain ⟨hc, hi, hcb⟩ := recreate_counters env w app app' tr hre
    exact ⟨by rw [hcb, hlen], by rw [hc, hcb]; exact hcur,
      by rw [hi]; exact hinf, hstep app'⟩

/-- C9 witness: the invariant at a fresh state from the sample
environment. -/
theorem frame_counters_invariant_witness :
    ∃ app tr, VulkanApp.new sampleEnv sampleWindow 6 = some (app, tr) ∧
      app.command_buffers.length = 2 ∧
      app.cur_frame < app.command_buffers.length ∧
      app.in_flight_frame < IN_FLIGHT_FRAMES := by
  cases hn : VulkanApp.new sampleEnv sampleWindow 6 with
  | none =>
    have hs : (VulkanApp.new sampleEnv sampleWindow 6).isSome = true := by
      decide
    rw [hn] at hs
    cases hs
  | some p =>
    obtain ⟨app, tr⟩ := p
    have h := frame_counters_invariant app
      (Reachable.init sampleEnv sampleWindow 6 app tr hn)
    exact ⟨app, tr, rfl, h.1, h.2.1, h.2.2.1⟩

end VkModel
